import Mathlib

/-!
# WiredTiger btree/bt_misc.c: page bookkeeping, write generations, DBT copies

A shallow embedding of the functions of `src/btree/bt_misc.c`.

* Machine integers are natural numbers; a 32-bit unsigned result is reduced
  modulo `2 ^ 32` at the place where the C code produces it.
* Addresses (`u_int8_t *`) are natural numbers; a pointer difference is an
  integer, and the cast `(u_int)` reduces it modulo `2 ^ 32`.
* A function that mutates its argument returns the new value next to its
  `int` return code.
* `wt_internal.h` is not part of the sources at hand.  The constants
  `WT_RESTART` and `WT_ERROR`, the structure sizes, the page-type and
  item-type constants and the allocator `__wt_realloc` are therefore
  parameters of the functions that use them; the macro `WT_ALIGN` is modelled
  from the spec.
-/

namespace BtMisc

/-! ## Data model -/

/-- The C conversion of an integer value to `u_int`: reduction modulo `2 ^ 32`. -/
def to_u_int (x : Int) : Nat := (x % 4294967296).toNat

/-- The fields of the in-memory page (`WT_PAGE`) that `bt_misc.c` reads or
writes.  `hdr` and `first_free` are addresses.  `size` and `space_avail` are
`u_int` values, as the cast in `page->size - (u_int)(...)` shows, and
`write_gen` is a `u_int32_t`, as the generation it is compared with. -/
structure WT_PAGE where
  hdr : Nat
  size : Nat
  first_free : Nat
  space_avail : Nat
  write_gen : Nat
deriving DecidableEq, Repr

/-- The 32-bit fields of a page hold 32-bit values. -/
def WT_PAGE.wf (page : WT_PAGE) : Prop :=
  page.size < 4294967296 ∧ page.space_avail < 4294967296 ∧ page.write_gen < 4294967296

instance (page : WT_PAGE) : Decidable page.wf := by
  unfold WT_PAGE.wf; infer_instance

/-! ## `__wt_page_write_gen_update` -/

/-- `__wt_page_write_gen_update(page, write_gen)`:
if the page's generation differs from the one presented, return `WT_RESTART`
and touch nothing; otherwise `++page->write_gen` (a `u_int32_t` increment),
flush, and return `0`.  The memory flush has no sequential effect. -/
def __wt_page_write_gen_update (WT_RESTART : Int) (page : WT_PAGE) (write_gen : Nat) :
    Int × WT_PAGE :=
  if page.write_gen ≠ write_gen then
    (WT_RESTART, page)
  else
    (0, { page with write_gen := (page.write_gen + 1) % 4294967296 })

/-- A sequence of `__wt_page_write_gen_update` calls on one page, each call
presenting its own observed generation; the result is the list of return
codes and the page after the last call. -/
def write_gen_update_seq (WT_RESTART : Int) : WT_PAGE → List Nat → List Int × WT_PAGE
  | page, [] => ([], page)
  | page, g :: gs =>
    let r := __wt_page_write_gen_update WT_RESTART page g
    let rest := write_gen_update_seq WT_RESTART r.2 gs
    (r.1 :: rest.1, rest.2)

/-- The three calls of scenario B on one page: a first call presenting the
generation the page has, a second call presenting that same, now stale,
generation, and a retry presenting the generation re-read from the page.
The result holds the return code and the page of each call, in order. -/
def write_gen_scenario (WT_RESTART : Int) (page : WT_PAGE) :
    (Int × WT_PAGE) × (Int × WT_PAGE) × (Int × WT_PAGE) :=
  let r1 := __wt_page_write_gen_update WT_RESTART page page.write_gen
  let r2 := __wt_page_write_gen_update WT_RESTART r1.2 page.write_gen
  let r3 := __wt_page_write_gen_update WT_RESTART r2.2 r2.2.write_gen
  (r1, r2, r3)

/-- The number of successful calls (return code `0`) among the return codes. -/
def successes (codes : List Int) : Nat := codes.count 0

/-! ## `__wt_bt_set_ff_and_sa_from_offset` -/

/-- `__wt_bt_set_ff_and_sa_from_offset(page, p)`:
`page->first_free = p;`
`page->space_avail = page->size - (u_int)(p - (u_int8_t *)page->hdr);`
The subtraction is carried out in `u_int`. -/
def __wt_bt_set_ff_and_sa_from_offset (page : WT_PAGE) (p : Nat) : WT_PAGE :=
  { page with
    first_free := p
    space_avail := to_u_int ((page.size : Int) - (to_u_int ((p : Int) - (page.hdr : Int)) : Int)) }

/-- The free-space relation of the page, over the integers:
`space_avail == size - (first_free - hdr)`. -/
def space_inv (page : WT_PAGE) : Prop :=
  (page.space_avail : Int) = (page.size : Int) - ((page.first_free : Int) - (page.hdr : Int))

instance (page : WT_PAGE) : Decidable (space_inv page) := by
  unfold space_inv; infer_instance

/-- The frontier lies inside the page: `hdr <= first_free <= hdr + size`. -/
def frontier_inv (page : WT_PAGE) : Prop :=
  page.hdr ≤ page.first_free ∧ page.first_free ≤ page.hdr + page.size

instance (page : WT_PAGE) : Decidable (frontier_inv page) := by
  unfold frontier_inv; infer_instance

/-- Modelled from the spec: the caller-side append of an item of `L` bytes,
which is not in `bt_misc.c`.  The spec asks that "a caller wishing to append
an item of length L must check `space_avail >= L` before writing"; a caller
that passes the check writes the item at `first_free` and hands the address
one past it to `__wt_bt_set_ff_and_sa_from_offset`, a caller that fails it
leaves the page alone.  The boolean says whether the item was appended. -/
def append_item (page : WT_PAGE) (L : Nat) : Bool × WT_PAGE :=
  if L ≤ page.space_avail then
    (true, __wt_bt_set_ff_and_sa_from_offset page (page.first_free + L))
  else
    (false, page)

/-! ## `__wt_bt_data_copy_to_dbt` -/

/-- The caller-owned descriptor (`DBT`).  `data` is `none` for a NULL pointer
and otherwise holds the bytes of the allocation it points to; `size` is the
valid length and `mem_size` the allocated length.  The structure is declared
in a header that is not at hand; its two length fields are taken wide enough
to hold every `len` the copy is called with. -/
structure DBT where
  data : Option (List Nat)
  size : Nat
  mem_size : Nat
deriving DecidableEq, Repr

/-- What a call `__wt_realloc(env, &copy->mem_size, len, &copy->data)` leaves
behind: its return code and the contents of the two locations it was handed. -/
structure ReallocResult where
  ret : Int
  mem_size : Nat
  data : Option (List Nat)
deriving DecidableEq, Repr

/-- The behaviour of `__wt_realloc` in the environment of one call, as a
function of the allocated length on entry, the requested length and the
pointer on entry.  The allocator is not in `bt_misc.c`, so it is a parameter
of the copy. -/
abbrev Realloc := Nat → Nat → Option (List Nat) → ReallocResult

/-- What the copy relies on from a successful `__wt_realloc`: the pointer it
leaves is not NULL and the allocated length it records covers the request. -/
def realloc_ok (realloc : Realloc) : Prop :=
  ∀ (mem_size len : Nat) (data : Option (List Nat)),
    (realloc mem_size len data).ret = 0 →
      (realloc mem_size len data).data ≠ none ∧ len ≤ (realloc mem_size len data).mem_size

/-- The library `memcpy(dst, src, n)` on byte lists: the first `n` bytes of
`dst` are replaced by the first `n` bytes of `src`. -/
def memcpy (dst src : List Nat) (n : Nat) : List Nat :=
  src.take n ++ dst.drop n

/-- `__wt_bt_data_copy_to_dbt(db, data, len, copy)`:
`if (copy->data == NULL || copy->mem_size < len)`
`    WT_RET(__wt_realloc(env, &copy->mem_size, len, &copy->data));`
`memcpy(copy->data, data, copy->size = len);`
`return (0);`
`WT_RET` returns the allocator's code when it is not `0`; the descriptor is
then as the allocator left it.  `db` only supplies the allocator's
environment. -/
def __wt_bt_data_copy_to_dbt (realloc : Realloc) (data : List Nat) (len : Nat) (copy : DBT) :
    Int × DBT :=
  if copy.data = none ∨ copy.mem_size < len then
    let r := realloc copy.mem_size len copy.data
    if r.ret ≠ 0 then
      (r.ret, { copy with mem_size := r.mem_size, data := r.data })
    else
      (0, { data := r.data.map (fun buf => memcpy buf data len)
            size := len
            mem_size := r.mem_size })
  else
    (0, { copy with
          data := copy.data.map (fun buf => memcpy buf data len)
          size := len })

/-- One call of `__wt_bt_data_copy_to_dbt`: the allocator behaviour of its
environment, the source bytes and the length. -/
structure CopyCall where
  realloc : Realloc
  data : List Nat
  len : Nat

/-- A sequence of `__wt_bt_data_copy_to_dbt` calls into one descriptor; the
result lists, for each call in order, its return code and the descriptor it
left. -/
def copy_seq : DBT → List CopyCall → List (Int × DBT)
  | _, [] => []
  | copy, c :: cs =>
    let r := __wt_bt_data_copy_to_dbt c.realloc c.data c.len copy
    r :: copy_seq r.2 cs

/-- An allocator that always succeeds: it keeps the old bytes, pads with
zeroes up to the requested length and records that length. -/
def realloc_grow : Realloc := fun _ len data =>
  { ret := 0
    mem_size := len
    data := some (((data.getD []).take len) ++ List.replicate (len - (data.getD []).length) 0) }

/-- An allocator that always fails with code `e` and changes nothing. -/
def realloc_fail (e : Int) : Realloc := fun mem_size _ data =>
  { ret := e, mem_size := mem_size, data := data }

/-- Four copies with the non-decreasing lengths 0, 2, 2 and 5, each in an
environment whose allocator succeeds. -/
def sample_calls : List CopyCall :=
  [⟨realloc_grow, [], 0⟩, ⟨realloc_grow, [7, 8], 2⟩, ⟨realloc_grow, [9, 10], 2⟩,
   ⟨realloc_grow, [1, 2, 3, 4, 5], 5⟩]

/-! ## `__wt_bt_build_verify` -/

/-- The compile-time quantities `__wt_bt_build_verify` looks at: the `sizeof`
of each structure as it is stored in the `u_int` tables, the `sizeof` of
`size_t`, and the contractual sizes `WT_..._SIZE`.  They come from headers
that are not at hand and from the compiler, so they are parameters. -/
structure BUILD where
  sizeof_WT_COL : Nat
  sizeof_WT_ITEM : Nat
  sizeof_WT_OFF : Nat
  sizeof_WT_OVFL : Nat
  sizeof_WT_PAGE_DESC : Nat
  sizeof_WT_PAGE_HDR : Nat
  sizeof_WT_ROW : Nat
  sizeof_WT_TOC_UPDATE : Nat
  sizeof_size_t : Nat
  WT_COL_SIZE : Nat
  WT_ITEM_SIZE : Nat
  WT_OFF_SIZE : Nat
  WT_OVFL_SIZE : Nat
  WT_PAGE_DESC_SIZE : Nat
  WT_PAGE_HDR_SIZE : Nat
  WT_ROW_SIZE : Nat
deriving DecidableEq, Repr

/-- The value of `sizeof(u_int32_t)`. -/
def sizeof_u_int32_t : Nat := 4

/-- One row of the table `size_check[]`. -/
structure SizeCheck where
  name : String
  size : Nat
  expected : Nat
deriving DecidableEq, Repr

/-- One row of the table `align_check[]`. -/
structure AlignCheck where
  name : String
  size : Nat
  align : Nat
deriving DecidableEq, Repr

/-- The table `size_check[]`, in the order of the source. -/
def size_check (b : BUILD) : List SizeCheck :=
  [ ⟨"WT_COL", b.sizeof_WT_COL, b.WT_COL_SIZE⟩,
    ⟨"WT_ITEM", b.sizeof_WT_ITEM, b.WT_ITEM_SIZE⟩,
    ⟨"WT_OFF", b.sizeof_WT_OFF, b.WT_OFF_SIZE⟩,
    ⟨"WT_OVFL", b.sizeof_WT_OVFL, b.WT_OVFL_SIZE⟩,
    ⟨"WT_PAGE_DESC", b.sizeof_WT_PAGE_DESC, b.WT_PAGE_DESC_SIZE⟩,
    ⟨"WT_PAGE_HDR", b.sizeof_WT_PAGE_HDR, b.WT_PAGE_HDR_SIZE⟩,
    ⟨"WT_ROW", b.sizeof_WT_ROW, b.WT_ROW_SIZE⟩ ]

/-- The table `align_check[]`, in the order of the source. -/
def align_check (b : BUILD) : List AlignCheck :=
  [ ⟨"WT_OFF", b.sizeof_WT_OFF, sizeof_u_int32_t⟩,
    ⟨"WT_OVFL", b.sizeof_WT_OVFL, sizeof_u_int32_t⟩,
    ⟨"WT_PAGE_HDR", b.sizeof_WT_PAGE_HDR, sizeof_u_int32_t⟩,
    ⟨"WT_TOC_UPDATE", b.sizeof_WT_TOC_UPDATE, sizeof_u_int32_t⟩ ]

/-- Modelled from the spec: the macro `WT_ALIGN(n, v)`, which is defined in a
header that is not at hand.  The spec describes it as "rounding its size up to
the alignment boundary": the least multiple of `v` that is not below `n`. -/
def WT_ALIGN (n v : Nat) : Nat := (n + (v - 1)) / v * v

/-- The message handed to `__wt_api_env_errx`, by its format and arguments:
"the %s header structure is not the correct size (expected %u, got %u)",
"the %s structure is not correctly aligned", and
"a size_t is smaller than 4-bytes". -/
inductive BuildError where
  | wrong_size (name : String) (expected : Nat) (got : Nat)
  | misaligned (name : String)
  | narrow_size_t
deriving DecidableEq, Repr

/-- The first loop of `__wt_bt_build_verify` from row `i` on: rows whose size
is the expected one are skipped; the first other row is reported. -/
def size_loop : List SizeCheck → Option BuildError
  | [] => none
  | c :: cs =>
    if c.size = c.expected then size_loop cs
    else some (BuildError.wrong_size c.name c.expected c.size)

/-- The second loop of `__wt_bt_build_verify` from row `i` on: rows whose size
`WT_ALIGN` leaves unchanged are skipped; the first other row is reported. -/
def align_loop : List AlignCheck → Option BuildError
  | [] => none
  | c :: cs =>
    if WT_ALIGN c.size c.align = c.size then align_loop cs
    else some (BuildError.misaligned c.name)

/-- `__wt_bt_build_verify()`: the size loop, then the alignment loop, then the
test `sizeof(size_t) < sizeof(u_int32_t)`; the first failure is reported
through `__wt_api_env_errx` and the function returns `WT_ERROR`; without a
failure it returns `0`.  The result is the return code and the message
reported, if any. -/
def __wt_bt_build_verify (WT_ERROR : Int) (b : BUILD) : Int × Option BuildError :=
  match size_loop (size_check b) with
  | some e => (WT_ERROR, some e)
  | none =>
    match align_loop (align_check b) with
    | some e => (WT_ERROR, some e)
    | none =>
      if b.sizeof_size_t < sizeof_u_int32_t then (WT_ERROR, some BuildError.narrow_size_t)
      else (0, none)

/-- A build in which every structure has its contractual size. -/
def sample_build : BUILD :=
  { sizeof_WT_COL := 16, sizeof_WT_ITEM := 4, sizeof_WT_OFF := 12, sizeof_WT_OVFL := 8
    sizeof_WT_PAGE_DESC := 512, sizeof_WT_PAGE_HDR := 64, sizeof_WT_ROW := 24
    sizeof_WT_TOC_UPDATE := 32, sizeof_size_t := 8
    WT_COL_SIZE := 16, WT_ITEM_SIZE := 4, WT_OFF_SIZE := 12, WT_OVFL_SIZE := 8
    WT_PAGE_DESC_SIZE := 512, WT_PAGE_HDR_SIZE := 64, WT_ROW_SIZE := 24 }

/-- Scenario C: the build of `sample_build` with a page header padded by 4
bytes, and, on top of that, a misaligned update record and a 2-byte `size_t`. -/
def mispadded_build : BUILD :=
  { sample_build with sizeof_WT_PAGE_HDR := 68, sizeof_WT_TOC_UPDATE := 30, sizeof_size_t := 2 }

/-! ## `__wt_bt_hdr_type` and `__wt_bt_item_type` -/

/-- The page header (`WT_PAGE_HDR`), reduced to the field the function reads. -/
structure WT_PAGE_HDR where
  type : Nat
deriving DecidableEq, Repr

/-- The values of the ten page-type constants, in the order of the `switch`.
They are defined in a header that is not at hand, so they are parameters. -/
structure PageTypes where
  WT_PAGE_DESCRIPT : Nat
  WT_PAGE_COL_FIX : Nat
  WT_PAGE_COL_INT : Nat
  WT_PAGE_COL_VAR : Nat
  WT_PAGE_DUP_INT : Nat
  WT_PAGE_DUP_LEAF : Nat
  WT_PAGE_OVFL : Nat
  WT_PAGE_ROW_INT : Nat
  WT_PAGE_ROW_LEAF : Nat
  WT_PAGE_INVALID : Nat
deriving DecidableEq, Repr

/-- The ten defined page-type tags. -/
def PageTypes.tags (k : PageTypes) : List Nat :=
  [k.WT_PAGE_DESCRIPT, k.WT_PAGE_COL_FIX, k.WT_PAGE_COL_INT, k.WT_PAGE_COL_VAR,
   k.WT_PAGE_DUP_INT, k.WT_PAGE_DUP_LEAF, k.WT_PAGE_OVFL, k.WT_PAGE_ROW_INT,
   k.WT_PAGE_ROW_LEAF, k.WT_PAGE_INVALID]

/-- The case labels of a C `switch` are pairwise different. -/
def PageTypes.distinct (k : PageTypes) : Prop := k.tags.Nodup

/-- `__wt_bt_hdr_type(hdr)`: the `switch (hdr->type)`, one case after the
other, with `"unknown"` after the `default`. -/
def __wt_bt_hdr_type (k : PageTypes) (hdr : WT_PAGE_HDR) : String :=
  if hdr.type = k.WT_PAGE_DESCRIPT then "database descriptor page"
  else if hdr.type = k.WT_PAGE_COL_FIX then "column fixed-length leaf"
  else if hdr.type = k.WT_PAGE_COL_INT then "column internal"
  else if hdr.type = k.WT_PAGE_COL_VAR then "column variable-length leaf"
  else if hdr.type = k.WT_PAGE_DUP_INT then "duplicate internal"
  else if hdr.type = k.WT_PAGE_DUP_LEAF then "duplicate leaf"
  else if hdr.type = k.WT_PAGE_OVFL then "overflow"
  else if hdr.type = k.WT_PAGE_ROW_INT then "row internal"
  else if hdr.type = k.WT_PAGE_ROW_LEAF then "row leaf"
  else if hdr.type = k.WT_PAGE_INVALID then "invalid"
  else "unknown"

/-- The values of the ten item-type constants, in the order of the `switch`.
They are defined in a header that is not at hand, so they are parameters. -/
structure ItemTypes where
  WT_ITEM_KEY : Nat
  WT_ITEM_KEY_OVFL : Nat
  WT_ITEM_DUPKEY : Nat
  WT_ITEM_DUPKEY_OVFL : Nat
  WT_ITEM_DATA : Nat
  WT_ITEM_DATA_OVFL : Nat
  WT_ITEM_DUP : Nat
  WT_ITEM_DUP_OVFL : Nat
  WT_ITEM_DEL : Nat
  WT_ITEM_OFF : Nat
deriving DecidableEq, Repr

/-- The ten defined item-type tags. -/
def ItemTypes.tags (k : ItemTypes) : List Nat :=
  [k.WT_ITEM_KEY, k.WT_ITEM_KEY_OVFL, k.WT_ITEM_DUPKEY, k.WT_ITEM_DUPKEY_OVFL,
   k.WT_ITEM_DATA, k.WT_ITEM_DATA_OVFL, k.WT_ITEM_DUP, k.WT_ITEM_DUP_OVFL,
   k.WT_ITEM_DEL, k.WT_ITEM_OFF]

/-- The case labels of a C `switch` are pairwise different. -/
def ItemTypes.distinct (k : ItemTypes) : Prop := k.tags.Nodup

/-- `__wt_bt_item_type(item)`: the `switch (WT_ITEM_TYPE(item))`, one case
after the other, with `"unknown"` after the `default`.  The macro
`WT_ITEM_TYPE` is defined in a header that is not at hand; the function takes
the tag `item_type` that the macro extracts from the item. -/
def __wt_bt_item_type (k : ItemTypes) (item_type : Nat) : String :=
  if item_type = k.WT_ITEM_KEY then "key"
  else if item_type = k.WT_ITEM_KEY_OVFL then "key-overflow"
  else if item_type = k.WT_ITEM_DUPKEY then "duplicate-key"
  else if item_type = k.WT_ITEM_DUPKEY_OVFL then "duplicate-key-overflow"
  else if item_type = k.WT_ITEM_DATA then "data"
  else if item_type = k.WT_ITEM_DATA_OVFL then "data-overflow"
  else if item_type = k.WT_ITEM_DUP then "duplicate"
  else if item_type = k.WT_ITEM_DUP_OVFL then "duplicate-overflow"
  else if item_type = k.WT_ITEM_DEL then "deleted"
  else if item_type = k.WT_ITEM_OFF then "off-page"
  else "unknown"

/-- A choice of ten different page-type values. -/
def sample_page_types : PageTypes := ⟨1, 2, 3, 4, 5, 6, 7, 8, 9, 0⟩

/-- A choice of ten different item-type values. -/
def sample_item_types : ItemTypes := ⟨1, 2, 3, 4, 5, 6, 7, 8, 9, 10⟩

end BtMisc

namespace BtMisc

/-! ## Shared lemmas -/

lemma realloc_grow_ok : realloc_ok realloc_grow :=
  fun _ _ _ _ => ⟨Option.some_ne_none _, le_refl _⟩


lemma write_gen_update_eq_of_ne (R : Int) (page : WT_PAGE) (g : Nat) (h : page.write_gen ≠ g) :
    __wt_page_write_gen_update R page g = (R, page) := by
  unfold __wt_page_write_gen_update
  rw [if_pos h]

lemma write_gen_update_eq_of_eq (R : Int) (page : WT_PAGE) (g : Nat) (h : page.write_gen = g) :
    __wt_page_write_gen_update R page g =
      (0, { page with write_gen := (page.write_gen + 1) % 4294967296 }) := by
  unfold __wt_page_write_gen_update
  rw [if_neg (not_not.mpr h)]

lemma write_gen_update_lt (R : Int) (page : WT_PAGE) (g : Nat)
    (h : page.write_gen < 4294967296) :
    (__wt_page_write_gen_update R page g).2.write_gen < 4294967296 := by
  by_cases hg : page.write_gen = g
  · rw [write_gen_update_eq_of_eq R page g hg]
    exact Nat.mod_lt _ (by decide)
  · rw [write_gen_update_eq_of_ne R page g hg]
    exact h

lemma successes_le_length (codes : List Int) : successes codes ≤ codes.length :=
  List.count_le_length 0 codes

lemma write_gen_update_seq_length (R : Int) (gs : List Nat) (page : WT_PAGE) :
    (write_gen_update_seq R page gs).1.length = gs.length := by
  induction gs generalizing page with
  | nil => rfl
  | cons g gs ih =>
    simp only [write_gen_update_seq, List.length_cons]
    rw [ih]

/-- After a sequence of calls the generation is the starting generation plus
the number of successful calls, modulo `2 ^ 32`. -/
lemma write_gen_update_seq_count (R : Int) (hR : R ≠ 0) (gs : List Nat) (page : WT_PAGE)
    (h : page.write_gen < 4294967296) :
    (write_gen_update_seq R page gs).2.write_gen =
      (page.write_gen + successes (write_gen_update_seq R page gs).1) % 4294967296 := by
  induction gs generalizing page with
  | nil =>
    simp only [write_gen_update_seq, successes, List.count_nil, Nat.add_zero]
    exact (Nat.mod_eq_of_lt h).symm
  | cons g gs ih =>
    simp only [write_gen_update_seq]
    rw [ih _ (write_gen_update_lt R page g h)]
    by_cases hg : page.write_gen = g
    · rw [write_gen_update_eq_of_eq R page g hg]
      simp only [successes, List.count_cons_self]
      omega
    · rw [write_gen_update_eq_of_ne R page g hg]
      simp only [successes]
      rw [List.count_cons_of_ne (Ne.symm hR)]

/-- Presenting the generations `k, k+1, ..., k+n-1` in order to a page whose
generation is `k` makes every call succeed. -/
lemma write_gen_update_seq_range (R : Int) (n : Nat) (k : Nat) (page : WT_PAGE)
    (hk : page.write_gen = k) (hlt : k < 4294967296) (hn : k + n ≤ 4294967296) :
    write_gen_update_seq R page (List.range' k n) =
      (List.replicate n 0, { page with write_gen := (k + n) % 4294967296 }) := by
  induction n generalizing k page with
  | zero =>
    have hmod : k % 4294967296 = k := Nat.mod_eq_of_lt hlt
    simp only [List.range'_zero, write_gen_update_seq, List.replicate_zero, Nat.add_zero, hmod]
    rw [← hk]
  | succ n ih =>
    simp only [List.range'_succ, write_gen_update_seq]
    rw [write_gen_update_eq_of_eq R page k hk]
    rcases Nat.eq_zero_or_pos n with h0 | hpos
    · subst h0
      simp only [List.range'_zero, write_gen_update_seq, List.replicate_succ,
        List.replicate_zero, Nat.zero_add]
      rw [hk]
    · have hk1 : (page.write_gen + 1) % 4294967296 = k + 1 := by
        rw [hk]; exact Nat.mod_eq_of_lt (by omega)
      rw [ih (k + 1) _ hk1 (by omega) (by omega)]
      simp only [List.replicate_succ]
      have hsum : k + 1 + n = k + (n + 1) := by omega
      rw [hsum]

lemma to_u_int_cast (x : Int) : ((to_u_int x : Nat) : Int) = x % 4294967296 := by
  unfold to_u_int
  exact Int.toNat_of_nonneg (Int.emod_nonneg x (by decide))

/-- The two reductions of the `u_int` subtraction collapse into one. -/
lemma set_ff_and_sa_space_avail (page : WT_PAGE) (p : Nat) :
    ((__wt_bt_set_ff_and_sa_from_offset page p).space_avail : Int) =
      ((page.size : Int) - ((p : Int) - (page.hdr : Int))) % 4294967296 := by
  show ((to_u_int ((page.size : Int) - (to_u_int ((p : Int) - (page.hdr : Int)) : Int)) : Nat)
    : Int) = _
  rw [to_u_int_cast, to_u_int_cast]
  omega

lemma memcpy_take (dst src : List Nat) (n : Nat) (h : n ≤ src.length) :
    (memcpy dst src n).take n = src.take n := by
  unfold memcpy
  have hl : (src.take n).length = n := by
    rw [List.length_take]; exact Nat.min_eq_left h
  exact List.take_left' hl

lemma copy_to_dbt_no_realloc (realloc : Realloc) (data : List Nat) (len : Nat) (copy : DBT)
    (h : ¬ (copy.data = none ∨ copy.mem_size < len)) :
    __wt_bt_data_copy_to_dbt realloc data len copy =
      (0, { copy with
            data := copy.data.map (fun buf => memcpy buf data len)
            size := len }) := by
  unfold __wt_bt_data_copy_to_dbt
  rw [if_neg h]

lemma copy_to_dbt_realloc_fail (realloc : Realloc) (data : List Nat) (len : Nat) (copy : DBT)
    (h : copy.data = none ∨ copy.mem_size < len)
    (hfail : (realloc copy.mem_size len copy.data).ret ≠ 0) :
    __wt_bt_data_copy_to_dbt realloc data len copy =
      ((realloc copy.mem_size len copy.data).ret,
       { copy with
         mem_size := (realloc copy.mem_size len copy.data).mem_size
         data := (realloc copy.mem_size len copy.data).data }) := by
  unfold __wt_bt_data_copy_to_dbt
  rw [if_pos h]
  simp only [if_pos hfail]

lemma copy_to_dbt_realloc_success (realloc : Realloc) (data : List Nat) (len : Nat) (copy : DBT)
    (h : copy.data = none ∨ copy.mem_size < len)
    (hsucc : (realloc copy.mem_size len copy.data).ret = 0) :
    __wt_bt_data_copy_to_dbt realloc data len copy =
      (0, { data := (realloc copy.mem_size len copy.data).data.map
              (fun buf => memcpy buf data len)
            size := len
            mem_size := (realloc copy.mem_size len copy.data).mem_size }) := by
  unfold __wt_bt_data_copy_to_dbt
  rw [if_pos h]
  simp only [if_neg (not_not.mpr hsucc)]

/-- What one successful copy leaves, given an allocator that keeps its
contract: a non-NULL buffer that starts with the source bytes, `size == len`,
`mem_size >= len`, and an allocated length not below the one of a descriptor
that had a buffer. -/
lemma copy_to_dbt_step (realloc : Realloc) (hok : realloc_ok realloc) (data : List Nat)
    (len : Nat) (copy : DBT) (hret : (__wt_bt_data_copy_to_dbt realloc data len copy).1 = 0) :
    (__wt_bt_data_copy_to_dbt realloc data len copy).2.size = len ∧
    len ≤ (__wt_bt_data_copy_to_dbt realloc data len copy).2.mem_size ∧
    (∃ buf buf0, (__wt_bt_data_copy_to_dbt realloc data len copy).2.data = some buf ∧
      buf = memcpy buf0 data len) ∧
    (copy.data ≠ none →
      copy.mem_size ≤ (__wt_bt_data_copy_to_dbt realloc data len copy).2.mem_size) := by
  by_cases hg : copy.data = none ∨ copy.mem_size < len
  · by_cases hr : (realloc copy.mem_size len copy.data).ret = 0
    · obtain ⟨hnn, hle⟩ := hok copy.mem_size len copy.data hr
      rw [copy_to_dbt_realloc_success realloc data len copy hg hr]
      obtain ⟨buf0, hbuf0⟩ := Option.ne_none_iff_exists'.mp hnn
      refine ⟨rfl, hle, ⟨memcpy buf0 data len, buf0, ?_, rfl⟩, fun hdata => ?_⟩
      · show Option.map _ (realloc copy.mem_size len copy.data).data = _
        rw [hbuf0]; rfl
      · show copy.mem_size ≤ (realloc copy.mem_size len copy.data).mem_size
        rcases hg with hnone | hlt
        · exact absurd hnone hdata
        · omega
    · rw [copy_to_dbt_realloc_fail realloc data len copy hg hr] at hret
      exact absurd hret hr
  · rw [copy_to_dbt_no_realloc realloc data len copy hg]
    have hnn : copy.data ≠ none := fun h => hg (Or.inl h)
    have hle : len ≤ copy.mem_size := by
      by_contra hlt
      exact hg (Or.inr (by omega))
    obtain ⟨buf0, hbuf0⟩ := Option.ne_none_iff_exists'.mp hnn
    refine ⟨rfl, hle, ⟨memcpy buf0 data len, buf0, ?_, rfl⟩, fun _ => le_refl _⟩
    show Option.map _ copy.data = _
    rw [hbuf0]; rfl

/-- From a descriptor whose NULL pointer goes with a zero allocated length,
the allocated length never goes down along a run of successful copies. -/
lemma copy_seq_chain (calls : List CopyCall) (copy : DBT)
    (hok : ∀ c ∈ calls, realloc_ok c.realloc)
    (hall : ∀ r ∈ copy_seq copy calls, r.1 = 0)
    (hinit : copy.data = none → copy.mem_size = 0) :
    List.Chain (fun a b : DBT => a.mem_size ≤ b.mem_size) copy
      ((copy_seq copy calls).map Prod.snd) := by
  induction calls generalizing copy with
  | nil => exact List.Chain.nil
  | cons c cs ih =>
    simp only [copy_seq, List.map_cons]
    have hret : (__wt_bt_data_copy_to_dbt c.realloc c.data c.len copy).1 = 0 :=
      hall _ (by simp only [copy_seq]; exact List.mem_cons_self _ _)
    obtain ⟨_, _, ⟨buf, _, hbuf, _⟩, hmono⟩ :=
      copy_to_dbt_step c.realloc (hok c (List.mem_cons_self _ _)) c.data c.len copy hret
    refine List.Chain.cons ?_ (ih _ (fun c' hc' => hok c' (List.mem_cons_of_mem _ hc'))
      (fun r hr => hall r (by simp only [copy_seq]; exact List.mem_cons_of_mem _ hr))
      (fun hnone => by rw [hbuf] at hnone; exact absurd hnone (Option.some_ne_none buf)))
    by_cases hnone : copy.data = none
    · rw [hinit hnone]; exact Nat.zero_le _
    · exact hmono hnone

lemma memcpy_drop (dst src : List Nat) (n : Nat) (h : n ≤ src.length) :
    (memcpy dst src n).drop n = dst.drop n := by
  unfold memcpy
  have hl : (src.take n).length = n := by
    rw [List.length_take]; exact Nat.min_eq_left h
  exact List.drop_left' hl

lemma size_loop_none_iff (l : List SizeCheck) :
    size_loop l = none ↔ ∀ c ∈ l, c.size = c.expected := by
  induction l with
  | nil => simp [size_loop]
  | cons c cs ih =>
    by_cases hc : c.size = c.expected
    · simp [size_loop, hc, ih]
    · simp [size_loop, hc]

lemma align_loop_none_iff (l : List AlignCheck) :
    align_loop l = none ↔ ∀ c ∈ l, WT_ALIGN c.size c.align = c.size := by
  induction l with
  | nil => simp [align_loop]
  | cons c cs ih =>
    by_cases hc : WT_ALIGN c.size c.align = c.size
    · simp [align_loop, hc, ih]
    · simp [align_loop, hc]

/-- The `switch` of `__wt_bt_hdr_type` takes the first case whose label
equals the tag, or the `default`. -/
lemma hdr_type_cases (k : PageTypes) (hdr : WT_PAGE_HDR) :
    (hdr.type = k.WT_PAGE_DESCRIPT ∧ __wt_bt_hdr_type k hdr = "database descriptor page") ∨
    (hdr.type = k.WT_PAGE_COL_FIX ∧ __wt_bt_hdr_type k hdr = "column fixed-length leaf") ∨
    (hdr.type = k.WT_PAGE_COL_INT ∧ __wt_bt_hdr_type k hdr = "column internal") ∨
    (hdr.type = k.WT_PAGE_COL_VAR ∧ __wt_bt_hdr_type k hdr = "column variable-length leaf") ∨
    (hdr.type = k.WT_PAGE_DUP_INT ∧ __wt_bt_hdr_type k hdr = "duplicate internal") ∨
    (hdr.type = k.WT_PAGE_DUP_LEAF ∧ __wt_bt_hdr_type k hdr = "duplicate leaf") ∨
    (hdr.type = k.WT_PAGE_OVFL ∧ __wt_bt_hdr_type k hdr = "overflow") ∨
    (hdr.type = k.WT_PAGE_ROW_INT ∧ __wt_bt_hdr_type k hdr = "row internal") ∨
    (hdr.type = k.WT_PAGE_ROW_LEAF ∧ __wt_bt_hdr_type k hdr = "row leaf") ∨
    (hdr.type = k.WT_PAGE_INVALID ∧ __wt_bt_hdr_type k hdr = "invalid") ∨
    (hdr.type ∉ k.tags ∧ __wt_bt_hdr_type k hdr = "unknown") := by
  unfold __wt_bt_hdr_type
  split_ifs with h0 h1 h2 h3 h4 h5 h6 h7 h8 h9
  · exact Or.inl ⟨h0, rfl⟩
  · exact Or.inr (Or.inl ⟨h1, rfl⟩)
  · exact Or.inr (Or.inr (Or.inl ⟨h2, rfl⟩))
  · exact Or.inr (Or.inr (Or.inr (Or.inl ⟨h3, rfl⟩)))
  · exact Or.inr (Or.inr (Or.inr (Or.inr (Or.inl ⟨h4, rfl⟩))))
  · exact Or.inr (Or.inr (Or.inr (Or.inr (Or.inr (Or.inl ⟨h5, rfl⟩)))))
  · exact Or.inr (Or.inr (Or.inr (Or.inr (Or.inr (Or.inr (Or.inl ⟨h6, rfl⟩))))))
  · exact Or.inr (Or.inr (Or.inr (Or.inr (Or.inr (Or.inr (Or.inr (Or.inl ⟨h7, rfl⟩)))))))
  · exact Or.inr (Or.inr (Or.inr (Or.inr (Or.inr (Or.inr (Or.inr (Or.inr
      (Or.inl ⟨h8, rfl⟩))))))))
  · exact Or.inr (Or.inr (Or.inr (Or.inr (Or.inr (Or.inr (Or.inr (Or.inr
      (Or.inr (Or.inl ⟨h9, rfl⟩)))))))))
  · refine Or.inr (Or.inr (Or.inr (Or.inr (Or.inr (Or.inr (Or.inr (Or.inr
      (Or.inr (Or.inr ⟨?_, rfl⟩)))))))))
    simp only [PageTypes.tags, List.mem_cons, List.mem_singleton, List.not_mem_nil, or_false]
    tauto

/-- The `switch` of `__wt_bt_item_type` takes the first case whose label
equals the tag, or the `default`. -/
lemma item_type_cases (k : ItemTypes) (t : Nat) :
    (t = k.WT_ITEM_KEY ∧ __wt_bt_item_type k t = "key") ∨
    (t = k.WT_ITEM_KEY_OVFL ∧ __wt_bt_item_type k t = "key-overflow") ∨
    (t = k.WT_ITEM_DUPKEY ∧ __wt_bt_item_type k t = "duplicate-key") ∨
    (t = k.WT_ITEM_DUPKEY_OVFL ∧ __wt_bt_item_type k t = "duplicate-key-overflow") ∨
    (t = k.WT_ITEM_DATA ∧ __wt_bt_item_type k t = "data") ∨
    (t = k.WT_ITEM_DATA_OVFL ∧ __wt_bt_item_type k t = "data-overflow") ∨
    (t = k.WT_ITEM_DUP ∧ __wt_bt_item_type k t = "duplicate") ∨
    (t = k.WT_ITEM_DUP_OVFL ∧ __wt_bt_item_type k t = "duplicate-overflow") ∨
    (t = k.WT_ITEM_DEL ∧ __wt_bt_item_type k t = "deleted") ∨
    (t = k.WT_ITEM_OFF ∧ __wt_bt_item_type k t = "off-page") ∨
    (t ∉ k.tags ∧ __wt_bt_item_type k t = "unknown") := by
  unfold __wt_bt_item_type
  split_ifs with h0 h1 h2 h3 h4 h5 h6 h7 h8 h9
  · exact Or.inl ⟨h0, rfl⟩
  · exact Or.inr (Or.inl ⟨h1, rfl⟩)
  · exact Or.inr (Or.inr (Or.inl ⟨h2, rfl⟩))
  · exact Or.inr (Or.inr (Or.inr (Or.inl ⟨h3, rfl⟩)))
  · exact Or.inr (Or.inr (Or.inr (Or.inr (Or.inl ⟨h4, rfl⟩))))
  · exact Or.inr (Or.inr (Or.inr (Or.inr (Or.inr (Or.inl ⟨h5, rfl⟩)))))
  · exact Or.inr (Or.inr (Or.inr (Or.inr (Or.inr (Or.inr (Or.inl ⟨h6, rfl⟩))))))
  · exact Or.inr (Or.inr (Or.inr (Or.inr (Or.inr (Or.inr (Or.inr (Or.inl ⟨h7, rfl⟩)))))))
  · exact Or.inr (Or.inr (Or.inr (Or.inr (Or.inr (Or.inr (Or.inr (Or.inr
      (Or.inl ⟨h8, rfl⟩))))))))
  · exact Or.inr (Or.inr (Or.inr (Or.inr (Or.inr (Or.inr (Or.inr (Or.inr
      (Or.inr (Or.inl ⟨h9, rfl⟩)))))))))
  · refine Or.inr (Or.inr (Or.inr (Or.inr (Or.inr (Or.inr (Or.inr (Or.inr
      (Or.inr (Or.inr ⟨?_, rfl⟩)))))))))
    simp only [ItemTypes.tags, List.mem_cons, List.mem_singleton, List.not_mem_nil, or_false]
    tauto

lemma hdr_type_known_iff (k : PageTypes) (hdr : WT_PAGE_HDR) :
    hdr.type ∈ k.tags ↔ __wt_bt_hdr_type k hdr ≠ "unknown" := by
  rcases hdr_type_cases k hdr with
    ⟨e, l⟩ | ⟨e, l⟩ | ⟨e, l⟩ | ⟨e, l⟩ | ⟨e, l⟩ | ⟨e, l⟩ | ⟨e, l⟩ | ⟨e, l⟩ | ⟨e, l⟩ | ⟨e, l⟩ | ⟨e, l⟩
  all_goals first
    | exact ⟨fun hmem => absurd hmem e, fun hne => absurd l hne⟩
    | exact ⟨fun _ => by rw [l]; decide, fun _ => by simp [PageTypes.tags, e]⟩

lemma item_type_known_iff (k : ItemTypes) (t : Nat) :
    t ∈ k.tags ↔ __wt_bt_item_type k t ≠ "unknown" := by
  rcases item_type_cases k t with
    ⟨e, l⟩ | ⟨e, l⟩ | ⟨e, l⟩ | ⟨e, l⟩ | ⟨e, l⟩ | ⟨e, l⟩ | ⟨e, l⟩ | ⟨e, l⟩ | ⟨e, l⟩ | ⟨e, l⟩ | ⟨e, l⟩
  all_goals first
    | exact ⟨fun hmem => absurd hmem e, fun hne => absurd l hne⟩
    | exact ⟨fun _ => by rw [l]; decide, fun _ => by simp [ItemTypes.tags, e]⟩

/-- A page label other than `"unknown"` determines the tag. -/
lemma hdr_type_inj (k : PageTypes) (h1 h2 : WT_PAGE_HDR)
    (hne : __wt_bt_hdr_type k h1 ≠ "unknown")
    (heq : __wt_bt_hdr_type k h1 = __wt_bt_hdr_type k h2) : h1.type = h2.type := by
  rcases hdr_type_cases k h1 with
    ⟨e1, l1⟩ | ⟨e1, l1⟩ | ⟨e1, l1⟩ | ⟨e1, l1⟩ | ⟨e1, l1⟩ | ⟨e1, l1⟩ | ⟨e1, l1⟩ | ⟨e1, l1⟩ | ⟨e1, l1⟩ | ⟨e1, l1⟩ | ⟨e1, l1⟩
  all_goals
    rcases hdr_type_cases k h2 with
      ⟨e2, l2⟩ | ⟨e2, l2⟩ | ⟨e2, l2⟩ | ⟨e2, l2⟩ | ⟨e2, l2⟩ | ⟨e2, l2⟩ | ⟨e2, l2⟩ | ⟨e2, l2⟩ | ⟨e2, l2⟩ | ⟨e2, l2⟩ | ⟨e2, l2⟩
  all_goals first
    | exact e1.trans e2.symm
    | exact absurd l1 hne
    | exact absurd (l1.symm.trans (heq.trans l2)) (by decide)

/-- An item label other than `"unknown"` determines the tag. -/
lemma item_type_inj (k : ItemTypes) (t1 t2 : Nat)
    (hne : __wt_bt_item_type k t1 ≠ "unknown")
    (heq : __wt_bt_item_type k t1 = __wt_bt_item_type k t2) : t1 = t2 := by
  rcases item_type_cases k t1 with
    ⟨e1, l1⟩ | ⟨e1, l1⟩ | ⟨e1, l1⟩ | ⟨e1, l1⟩ | ⟨e1, l1⟩ | ⟨e1, l1⟩ | ⟨e1, l1⟩ | ⟨e1, l1⟩ | ⟨e1, l1⟩ | ⟨e1, l1⟩ | ⟨e1, l1⟩
  all_goals
    rcases item_type_cases k t2 with
      ⟨e2, l2⟩ | ⟨e2, l2⟩ | ⟨e2, l2⟩ | ⟨e2, l2⟩ | ⟨e2, l2⟩ | ⟨e2, l2⟩ | ⟨e2, l2⟩ | ⟨e2, l2⟩ | ⟨e2, l2⟩ | ⟨e2, l2⟩ | ⟨e2, l2⟩
  all_goals first
    | exact e1.trans e2.symm
    | exact absurd l1 hne
    | exact absurd (l1.symm.trans (heq.trans l2)) (by decide)

/-! ## The write-generation gate -/

/-- C1: when the page's generation differs from the observed generation `g`,
`__wt_page_write_gen_update` returns `WT_RESTART`, which is not the success
code `0`, and the page it leaves is the page it was given, field for field. -/
theorem write_gen_update_conflict (WT_RESTART : Int) (hR : WT_RESTART ≠ 0)
    (page : WT_PAGE) (g : Nat) (h : page.write_gen ≠ g) :
    (__wt_page_write_gen_update WT_RESTART page g).1 = WT_RESTART ∧
    (__wt_page_write_gen_update WT_RESTART page g).1 ≠ 0 ∧
    (__wt_page_write_gen_update WT_RESTART page g).2 = page := by
  rw [write_gen_update_eq_of_ne WT_RESTART page g h]
  exact ⟨rfl, hR, rfl⟩

/-- Witness for C1: a page at generation 6 is presented the stale generation 5. -/
theorem write_gen_update_conflict_witness :
    ((-31001 : Int) ≠ 0 ∧ (6 : Nat) ≠ 5) ∧
    ((__wt_page_write_gen_update (-31001) ⟨4096, 4096, 4260, 3932, 6⟩ 5).1 = -31001 ∧
     (__wt_page_write_gen_update (-31001) ⟨4096, 4096, 4260, 3932, 6⟩ 5).1 ≠ 0 ∧
     (__wt_page_write_gen_update (-31001) ⟨4096, 4096, 4260, 3932, 6⟩ 5).2 =
       ⟨4096, 4096, 4260, 3932, 6⟩) :=
  ⟨⟨by decide, by decide⟩,
   write_gen_update_conflict (-31001) (by decide) ⟨4096, 4096, 4260, 3932, 6⟩ 5 (by decide)⟩

/-- C2, as stated, fails at the largest 32-bit generation: the call with
`write_gen == g == 4294967295` succeeds, and the new generation is `0`, which
is neither the old generation plus one nor greater than the old generation. -/
theorem write_gen_update_wraps :
    (__wt_page_write_gen_update (-31001) ⟨4096, 4096, 4260, 3932, 4294967295⟩ 4294967295).1 = 0 ∧
    (__wt_page_write_gen_update (-31001) ⟨4096, 4096, 4260, 3932, 4294967295⟩
      4294967295).2.write_gen = 0 ∧
    ¬ ((__wt_page_write_gen_update (-31001) ⟨4096, 4096, 4260, 3932, 4294967295⟩
        4294967295).2.write_gen = 4294967295 + 1) ∧
    ¬ (4294967295 <
      (__wt_page_write_gen_update (-31001) ⟨4096, 4096, 4260, 3932, 4294967295⟩
        4294967295).2.write_gen) := by
  decide

/-- C2, amended: `__wt_page_write_gen_update` returns `0` exactly when the
page's generation equals the observed one; a successful call replaces the
generation by its successor modulo `2 ^ 32` and changes no other field, so the
new generation is the old one plus exactly 1, and strictly greater, whenever
the old one is below `4294967295`, and is `0` when the old one is
`4294967295`. -/
theorem write_gen_update_success (WT_RESTART : Int) (hR : WT_RESTART ≠ 0)
    (page : WT_PAGE) (g : Nat) :
    ((__wt_page_write_gen_update WT_RESTART page g).1 = 0 ↔ page.write_gen = g) ∧
    ((__wt_page_write_gen_update WT_RESTART page g).1 = 0 →
      (__wt_page_write_gen_update WT_RESTART page g).2 =
        { page with write_gen := (page.write_gen + 1) % 4294967296 } ∧
      (page.write_gen < 4294967295 →
        (__wt_page_write_gen_update WT_RESTART page g).2.write_gen = page.write_gen + 1 ∧
        page.write_gen < (__wt_page_write_gen_update WT_RESTART page g).2.write_gen) ∧
      (page.write_gen = 4294967295 →
        (__wt_page_write_gen_update WT_RESTART page g).2.write_gen = 0)) := by
  by_cases hg : page.write_gen = g
  · rw [write_gen_update_eq_of_eq WT_RESTART page g hg]
    refine ⟨⟨fun _ => hg, fun _ => rfl⟩, fun _ => ⟨rfl, ?_, ?_⟩⟩
    · intro hlt
      have hmod : (page.write_gen + 1) % 4294967296 = page.write_gen + 1 :=
        Nat.mod_eq_of_lt (by omega)
      exact ⟨hmod, by show page.write_gen < (page.write_gen + 1) % 4294967296; omega⟩
    · intro hmax
      show (page.write_gen + 1) % 4294967296 = 0
      rw [hmax]
  · rw [write_gen_update_eq_of_ne WT_RESTART page g hg]
    refine ⟨⟨fun h0 => absurd h0 hR, fun h => absurd h hg⟩, fun h0 => absurd h0 hR⟩

/-- Witness for C2 (amended): a page at generation 5 is presented 5. -/
theorem write_gen_update_success_witness :
    (-31001 : Int) ≠ 0 ∧
    (__wt_page_write_gen_update (-31001) ⟨4096, 4096, 4260, 3932, 5⟩ 5).1 = 0 ∧
    (__wt_page_write_gen_update (-31001) ⟨4096, 4096, 4260, 3932, 5⟩ 5).2.write_gen = 6 :=
  ⟨by decide,
   ((write_gen_update_success (-31001) (by decide) ⟨4096, 4096, 4260, 3932, 5⟩ 5).1).2 rfl,
   (((write_gen_update_success (-31001) (by decide) ⟨4096, 4096, 4260, 3932, 5⟩ 5).2
      (by decide)).2.1 (by decide)).1⟩

/-- C3, as stated, fails for a page at the largest 32-bit generation
`g = 4294967295`: the first call succeeds but the generation becomes `0`, not
`g + 1`, and the retry leaves `1`, not `g + 2`. -/
theorem write_gen_scenario_wraps :
    (write_gen_scenario (-31001) ⟨4096, 4096, 4260, 3932, 4294967295⟩).1.1 = 0 ∧
    (write_gen_scenario (-31001) ⟨4096, 4096, 4260, 3932, 4294967295⟩).1.2.write_gen = 0 ∧
    (write_gen_scenario (-31001) ⟨4096, 4096, 4260, 3932, 4294967295⟩).1.2.write_gen ≠
      4294967295 + 1 ∧
    (write_gen_scenario (-31001) ⟨4096, 4096, 4260, 3932, 4294967295⟩).2.2.2.write_gen = 1 ∧
    (write_gen_scenario (-31001) ⟨4096, 4096, 4260, 3932, 4294967295⟩).2.2.2.write_gen ≠
      4294967295 + 2 := by
  decide

/-- C3, amended: on a page at generation `g` the first call presenting `g`
succeeds and leaves generation `(g + 1) mod 2 ^ 32`; the second call presenting
the stale `g` returns `WT_RESTART` (not `0`) and leaves the page as the first
call left it, so exactly one of the two calls succeeds and the generation moves
once; the retry presenting the re-read generation succeeds and leaves
`(g + 2) mod 2 ^ 32`.  No call changes another field.  When `g + 2 < 2 ^ 32`
the generations are `g + 1` and `g + 2`, as in scenario B with `g = 5`. -/
theorem write_gen_scenario_steps (WT_RESTART : Int) (hR : WT_RESTART ≠ 0) (page : WT_PAGE) :
    (write_gen_scenario WT_RESTART page).1.1 = 0 ∧
    (write_gen_scenario WT_RESTART page).1.2 =
      { page with write_gen := (page.write_gen + 1) % 4294967296 } ∧
    (write_gen_scenario WT_RESTART page).2.1.1 = WT_RESTART ∧
    (write_gen_scenario WT_RESTART page).2.1.1 ≠ 0 ∧
    (write_gen_scenario WT_RESTART page).2.1.2 = (write_gen_scenario WT_RESTART page).1.2 ∧
    (write_gen_scenario WT_RESTART page).2.2.1 = 0 ∧
    (write_gen_scenario WT_RESTART page).2.2.2 =
      { page with write_gen := (page.write_gen + 2) % 4294967296 } ∧
    (page.write_gen + 2 < 4294967296 →
      (write_gen_scenario WT_RESTART page).1.2.write_gen = page.write_gen + 1 ∧
      (write_gen_scenario WT_RESTART page).2.1.2.write_gen = page.write_gen + 1 ∧
      (write_gen_scenario WT_RESTART page).2.2.2.write_gen = page.write_gen + 2) := by
  have hstale : ({ page with write_gen := (page.write_gen + 1) % 4294967296 } :
      WT_PAGE).write_gen ≠ page.write_gen := by
    show (page.write_gen + 1) % 4294967296 ≠ page.write_gen
    omega
  have h1 := write_gen_update_eq_of_eq WT_RESTART page page.write_gen rfl
  have h2 := write_gen_update_eq_of_ne WT_RESTART
    { page with write_gen := (page.write_gen + 1) % 4294967296 } page.write_gen hstale
  have h3 := write_gen_update_eq_of_eq WT_RESTART
    { page with write_gen := (page.write_gen + 1) % 4294967296 }
    ((page.write_gen + 1) % 4294967296) rfl
  have hmod : ((page.write_gen + 1) % 4294967296 + 1) % 4294967296 =
      (page.write_gen + 2) % 4294967296 := by omega
  have hs : write_gen_scenario WT_RESTART page =
      ((0, { page with write_gen := (page.write_gen + 1) % 4294967296 }),
       (WT_RESTART, { page with write_gen := (page.write_gen + 1) % 4294967296 }),
       (0, { page with write_gen := (page.write_gen + 2) % 4294967296 })) := by
    simp only [write_gen_scenario, h1, h2, h3, hmod]
  rw [hs]
  refine ⟨rfl, rfl, rfl, hR, rfl, rfl, rfl, fun hlt => ⟨?_, ?_, ?_⟩⟩
  · exact Nat.mod_eq_of_lt (by omega)
  · exact Nat.mod_eq_of_lt (by omega)
  · exact Nat.mod_eq_of_lt hlt

/-- Witness for C3 (amended): scenario B, two writers that both read
generation 5; the page ends at 6 after the first, stays at 6 after the stale
second, and reaches 7 after the retry. -/
theorem write_gen_scenario_steps_witness :
    (-31001 : Int) ≠ 0 ∧
    (write_gen_scenario (-31001) ⟨4096, 4096, 4260, 3932, 5⟩).1 =
      (0, ⟨4096, 4096, 4260, 3932, 6⟩) ∧
    (write_gen_scenario (-31001) ⟨4096, 4096, 4260, 3932, 5⟩).2.1.1 = -31001 ∧
    (write_gen_scenario (-31001) ⟨4096, 4096, 4260, 3932, 5⟩).2.1.2.write_gen = 6 ∧
    (write_gen_scenario (-31001) ⟨4096, 4096, 4260, 3932, 5⟩).2.2.2.write_gen = 7 :=
  ⟨by decide,
   Prod.ext (write_gen_scenario_steps (-31001) (by decide) ⟨4096, 4096, 4260, 3932, 5⟩).1
     (write_gen_scenario_steps (-31001) (by decide) ⟨4096, 4096, 4260, 3932, 5⟩).2.1,
   (write_gen_scenario_steps (-31001) (by decide) ⟨4096, 4096, 4260, 3932, 5⟩).2.2.1,
   ((write_gen_scenario_steps (-31001) (by decide) ⟨4096, 4096, 4260, 3932, 5⟩).2.2.2.2.2.2.2
      (by decide)).2.1,
   ((write_gen_scenario_steps (-31001) (by decide) ⟨4096, 4096, 4260, 3932, 5⟩).2.2.2.2.2.2.2
      (by decide)).2.2⟩

/-- C4, as stated, fails for the sequence of `2 ^ 32` calls that present the
generations `0, 1, ..., 4294967295` in order to a page at generation `0`: every
call succeeds, and the generation after the sequence is `0` again. -/
theorem write_gen_seq_full_cycle :
    (write_gen_update_seq (-31001) ⟨4096, 4096, 4260, 3932, 0⟩
      (List.range' 0 4294967296)).2.write_gen =
      (⟨4096, 4096, 4260, 3932, 0⟩ : WT_PAGE).write_gen ∧
    ∃ c ∈ (write_gen_update_seq (-31001) ⟨4096, 4096, 4260, 3932, 0⟩
      (List.range' 0 4294967296)).1, c = 0 := by
  rw [write_gen_update_seq_range (-31001) 4294967296 0 ⟨4096, 4096, 4260, 3932, 0⟩ rfl
    (by omega) (by omega)]
  refine ⟨?_, 0, ?_, rfl⟩
  · show (0 + 4294967296) % 4294967296 = 0
    omega
  · exact List.mem_replicate.mpr ⟨by omega, rfl⟩

/-- C4, amended: for a page with a 32-bit generation and any sequence of
`__wt_page_write_gen_update` calls, if the generation after the sequence equals
the generation before it, then the number of calls that succeeded is a multiple
of `2 ^ 32`; in particular, when the sequence has fewer than `2 ^ 32` calls, no
call in it succeeded. -/
theorem write_gen_seq_unchanged (WT_RESTART : Int) (hR : WT_RESTART ≠ 0)
    (page : WT_PAGE) (gs : List Nat) (hwf : page.write_gen < 4294967296)
    (hsame : (write_gen_update_seq WT_RESTART page gs).2.write_gen = page.write_gen) :
    successes (write_gen_update_seq WT_RESTART page gs).1 % 4294967296 = 0 ∧
    (gs.length < 4294967296 →
      successes (write_gen_update_seq WT_RESTART page gs).1 = 0 ∧
      ∀ c ∈ (write_gen_update_seq WT_RESTART page gs).1, c ≠ 0) := by
  have hcount := write_gen_update_seq_count WT_RESTART hR gs page hwf
  rw [hsame] at hcount
  have hle := successes_le_length (write_gen_update_seq WT_RESTART page gs).1
  rw [write_gen_update_seq_length] at hle
  refine ⟨by omega, fun hlen => ?_⟩
  have hzero : successes (write_gen_update_seq WT_RESTART page gs).1 = 0 := by omega
  refine ⟨hzero, fun c hc h0 => ?_⟩
  have hnot := List.count_eq_zero.mp hzero
  exact hnot (h0 ▸ hc)

/-- Witness for C4 (amended): a page at generation 5 is presented the stale
generations 4, 3 and 7; its generation is still 5 and no call succeeded. -/
theorem write_gen_seq_unchanged_witness :
    ((-31001 : Int) ≠ 0 ∧ (5 : Nat) < 4294967296 ∧
      (write_gen_update_seq (-31001) ⟨4096, 4096, 4260, 3932, 5⟩ [4, 3, 7]).2.write_gen = 5) ∧
    successes (write_gen_update_seq (-31001) ⟨4096, 4096, 4260, 3932, 5⟩ [4, 3, 7]).1 = 0 :=
  ⟨⟨by decide, by decide, by decide⟩,
   ((write_gen_seq_unchanged (-31001) (by decide) ⟨4096, 4096, 4260, 3932, 5⟩ [4, 3, 7]
      (by decide) (by decide)).2 (by decide)).1⟩

/-! ## Free-space bookkeeping -/

/-- C5, as stated, fails for an address past the end of the page: with
`hdr = 4096`, `size = 4096` and `p = 8193` the call stores
`space_avail = 4294967295`, while `size - (first_free - hdr)` is `-1`. -/
theorem set_ff_and_sa_past_end :
    (__wt_bt_set_ff_and_sa_from_offset ⟨4096, 4096, 4160, 4032, 5⟩ 8193).first_free = 8193 ∧
    (__wt_bt_set_ff_and_sa_from_offset ⟨4096, 4096, 4160, 4032, 5⟩ 8193).space_avail =
      4294967295 ∧
    ¬ space_inv (__wt_bt_set_ff_and_sa_from_offset ⟨4096, 4096, 4160, 4032, 5⟩ 8193) := by
  decide

/-- C5, amended: for every page and every address `p` the call sets
`first_free` to `p` and `space_avail` to `size - (p - hdr)` reduced modulo
`2 ^ 32`, and leaves `hdr`, `size` and `write_gen` alone; the stored
`space_avail` equals `size - (first_free - hdr)` itself whenever
`p <= hdr + size` and `hdr + size - p < 2 ^ 32`. -/
theorem set_ff_and_sa_sets_both (page : WT_PAGE) (p : Nat) :
    (__wt_bt_set_ff_and_sa_from_offset page p).first_free = p ∧
    ((__wt_bt_set_ff_and_sa_from_offset page p).space_avail : Int) =
      ((page.size : Int) - ((p : Int) - (page.hdr : Int))) % 4294967296 ∧
    (__wt_bt_set_ff_and_sa_from_offset page p).hdr = page.hdr ∧
    (__wt_bt_set_ff_and_sa_from_offset page p).size = page.size ∧
    (__wt_bt_set_ff_and_sa_from_offset page p).write_gen = page.write_gen ∧
    (p ≤ page.hdr + page.size → page.hdr + page.size < p + 4294967296 →
      space_inv (__wt_bt_set_ff_and_sa_from_offset page p)) := by
  refine ⟨rfl, set_ff_and_sa_space_avail page p, rfl, rfl, rfl, fun hhi hlo => ?_⟩
  unfold space_inv
  rw [set_ff_and_sa_space_avail]
  show ((page.size : Int) - ((p : Int) - (page.hdr : Int))) % 4294967296 =
    (page.size : Int) - ((p : Int) - (page.hdr : Int))
  omega

/-- Witness for C5 (amended): the frontier is put 64 bytes into a 4096-byte
page at address 4096. -/
theorem set_ff_and_sa_sets_both_witness :
    ((4160 : Nat) ≤ 4096 + 4096 ∧ (4096 : Nat) + 4096 < 4160 + 4294967296) ∧
    space_inv (__wt_bt_set_ff_and_sa_from_offset ⟨4096, 4096, 4096, 4096, 5⟩ 4160) ∧
    (__wt_bt_set_ff_and_sa_from_offset ⟨4096, 4096, 4096, 4096, 5⟩ 4160).space_avail = 4032 :=
  ⟨⟨by decide, by decide⟩,
   (set_ff_and_sa_sets_both ⟨4096, 4096, 4096, 4096, 5⟩ 4160).2.2.2.2.2 (by decide) (by decide),
   by decide⟩

/-- C6, as stated, fails: the call stores whatever address it is given.  With
`hdr = 4096` and `size = 4096`, the address `4095` leaves `first_free < hdr`
(and `space_avail = 4097 > size`), and the address `8200` leaves
`first_free > hdr + size`. -/
theorem set_ff_and_sa_outside_page :
    ¬ frontier_inv (__wt_bt_set_ff_and_sa_from_offset ⟨4096, 4096, 4160, 4032, 5⟩ 4095) ∧
    (__wt_bt_set_ff_and_sa_from_offset ⟨4096, 4096, 4160, 4032, 5⟩ 4095).space_avail = 4097 ∧
    ¬ frontier_inv (__wt_bt_set_ff_and_sa_from_offset ⟨4096, 4096, 4160, 4032, 5⟩ 8200) ∧
    ¬ space_inv (__wt_bt_set_ff_and_sa_from_offset ⟨4096, 4096, 4160, 4032, 5⟩ 8200) := by
  decide

/-- C6, amended: after every call `__wt_bt_set_ff_and_sa_from_offset(page, p)`
whose address satisfies `hdr <= p <= hdr + size`, on a page with a 32-bit
`size`, the page satisfies `hdr <= first_free <= hdr + size` and
`space_avail == size - (first_free - hdr)`. -/
theorem set_ff_and_sa_invariant (page : WT_PAGE) (p : Nat) (hsize : page.size < 4294967296)
    (hlo : page.hdr ≤ p) (hhi : p ≤ page.hdr + page.size) :
    frontier_inv (__wt_bt_set_ff_and_sa_from_offset page p) ∧
    space_inv (__wt_bt_set_ff_and_sa_from_offset page p) := by
  refine ⟨⟨hlo, hhi⟩, ?_⟩
  unfold space_inv
  rw [set_ff_and_sa_space_avail]
  show ((page.size : Int) - ((p : Int) - (page.hdr : Int))) % 4294967296 =
    (page.size : Int) - ((p : Int) - (page.hdr : Int))
  omega

/-- Witness for C6 (amended): the frontier is put at the very end of a
4096-byte page at address 4096. -/
theorem set_ff_and_sa_invariant_witness :
    ((4096 : Nat) < 4294967296 ∧ (4096 : Nat) ≤ 8192 ∧ (8192 : Nat) ≤ 4096 + 4096) ∧
    frontier_inv (__wt_bt_set_ff_and_sa_from_offset ⟨4096, 4096, 4160, 4032, 5⟩ 8192) ∧
    space_inv (__wt_bt_set_ff_and_sa_from_offset ⟨4096, 4096, 4160, 4032, 5⟩ 8192) :=
  ⟨⟨by decide, by decide, by decide⟩,
   set_ff_and_sa_invariant ⟨4096, 4096, 4160, 4032, 5⟩ 8192 (by decide) (by decide) (by decide)⟩

/-- C7: on a page with a 32-bit `space_avail` that satisfies
`space_avail == size - (first_free - hdr)`, appending an item of `L` bytes with
`L <= space_avail` by calling
`__wt_bt_set_ff_and_sa_from_offset(page, first_free + L)` lowers `space_avail`
by exactly `L`, advances `first_free` by exactly `L`, keeps the relation, and
is what the checking caller does; an item with `L > space_avail` is rejected by
the caller's check and the page stays as it was. -/
theorem append_accounting (page : WT_PAGE) (L : Nat) (h32 : page.space_avail < 4294967296)
    (hinv : space_inv page) :
    (L ≤ page.space_avail →
      (__wt_bt_set_ff_and_sa_from_offset page (page.first_free + L)).space_avail + L =
        page.space_avail ∧
      (__wt_bt_set_ff_and_sa_from_offset page (page.first_free + L)).first_free =
        page.first_free + L ∧
      space_inv (__wt_bt_set_ff_and_sa_from_offset page (page.first_free + L)) ∧
      append_item page L =
        (true, __wt_bt_set_ff_and_sa_from_offset page (page.first_free + L))) ∧
    (page.space_avail < L → append_item page L = (false, page)) := by
  have hsa := set_ff_and_sa_space_avail page (page.first_free + L)
  unfold space_inv at hinv
  refine ⟨fun hL => ⟨?_, rfl, ?_, ?_⟩, fun hL => ?_⟩
  · push_cast at hsa
    omega
  · unfold space_inv
    show ((__wt_bt_set_ff_and_sa_from_offset page (page.first_free + L)).space_avail : Int) =
      (page.size : Int) - (((page.first_free + L : Nat) : Int) - (page.hdr : Int))
    push_cast at hsa ⊢
    omega
  · unfold append_item
    rw [if_pos hL]
  · unfold append_item
    rw [if_neg (by omega)]

/-- Witness for C7, scenario A: a 4096-byte page at address 4096 whose
64-byte header leaves `space_avail = 4032`; a 100-byte item leaves 3932; a
4000-byte item does not fit and is not appended; a 50-byte item leaves 3882. -/
theorem append_accounting_witness :
    ((4032 : Nat) < 4294967296 ∧ space_inv ⟨4096, 4096, 4160, 4032, 0⟩ ∧ (100 : Nat) ≤ 4032) ∧
    __wt_bt_set_ff_and_sa_from_offset ⟨4096, 4096, 4096, 4096, 0⟩ (4096 + 64) =
      ⟨4096, 4096, 4160, 4032, 0⟩ ∧
    (__wt_bt_set_ff_and_sa_from_offset ⟨4096, 4096, 4160, 4032, 0⟩ (4160 + 100)).space_avail
      + 100 = 4032 ∧
    append_item ⟨4096, 4096, 4160, 4032, 0⟩ 100 = (true, ⟨4096, 4096, 4260, 3932, 0⟩) ∧
    append_item ⟨4096, 4096, 4260, 3932, 0⟩ 4000 = (false, ⟨4096, 4096, 4260, 3932, 0⟩) ∧
    append_item ⟨4096, 4096, 4260, 3932, 0⟩ 50 = (true, ⟨4096, 4096, 4310, 3882, 0⟩) :=
  ⟨⟨by decide, by decide, by decide⟩,
   by decide,
   ((append_accounting ⟨4096, 4096, 4160, 4032, 0⟩ 100 (by decide) (by decide)).1
      (by decide)).1,
   by decide,
   (append_accounting ⟨4096, 4096, 4260, 3932, 0⟩ 4000 (by decide) (by decide)).2 (by decide),
   by decide⟩

/-! ## Copies into a caller-owned descriptor -/

/-- C8: for every source of at least `len` bytes and every descriptor, when
`__wt_bt_data_copy_to_dbt` returns `0` (with an allocator that leaves a
non-NULL buffer when it succeeds) the descriptor has `size == len` and a data
buffer whose first `len` bytes are the first `len` source bytes, in order; for
a source of exactly `len` bytes they are the source. -/
theorem copy_to_dbt_copies (realloc : Realloc) (hok : realloc_ok realloc) (data : List Nat)
    (len : Nat) (copy : DBT) (hlen : len ≤ data.length)
    (hret : (__wt_bt_data_copy_to_dbt realloc data len copy).1 = 0) :
    (__wt_bt_data_copy_to_dbt realloc data len copy).2.size = len ∧
    ∃ buf, (__wt_bt_data_copy_to_dbt realloc data len copy).2.data = some buf ∧
      buf.take len = data.take len ∧ (data.length = len → buf.take len = data) := by
  obtain ⟨hsize, _, ⟨buf, buf0, hbuf, hcopy⟩, _⟩ :=
    copy_to_dbt_step realloc hok data len copy hret
  have htake : buf.take len = data.take len := by
    rw [hcopy]; exact memcpy_take buf0 data len hlen
  refine ⟨hsize, buf, hbuf, htake, fun hexact => ?_⟩
  rw [htake, ← hexact]
  exact List.take_length data

/-- Witness for C8: an empty source into an empty descriptor, and a
three-byte source into a descriptor that holds a longer buffer. -/
theorem copy_to_dbt_copies_witness :
    (realloc_ok realloc_grow ∧ (3 : Nat) ≤ [10, 20, 30].length ∧
      (__wt_bt_data_copy_to_dbt realloc_grow [10, 20, 30] 3 ⟨some [1, 2, 3, 4], 4, 4⟩).1 = 0) ∧
    (__wt_bt_data_copy_to_dbt realloc_grow [10, 20, 30] 3 ⟨some [1, 2, 3, 4], 4, 4⟩).2.size
      = 3 ∧
    __wt_bt_data_copy_to_dbt realloc_grow [10, 20, 30] 3 ⟨some [1, 2, 3, 4], 4, 4⟩ =
      (0, ⟨some [10, 20, 30, 4], 3, 4⟩) ∧
    __wt_bt_data_copy_to_dbt realloc_grow [] 0 ⟨none, 0, 0⟩ = (0, ⟨some [], 0, 0⟩) :=
  ⟨⟨realloc_grow_ok, by decide, by decide⟩,
   (copy_to_dbt_copies realloc_grow realloc_grow_ok
      [10, 20, 30] 3 ⟨some [1, 2, 3, 4], 4, 4⟩ (by decide) (by decide)).1,
   by decide, by decide⟩

/-- C9: along every sequence of successful `__wt_bt_data_copy_to_dbt` calls
into one descriptor (each with an allocator that, when it succeeds, leaves a
non-NULL buffer and records at least the requested length) `mem_size` never
shrinks from one call to the next, after each call `mem_size` is at least that
call's `len` and `size` equals that call's `len`, so `size <= mem_size` and
`size` is the last requested length; and from a descriptor whose NULL pointer
goes with `mem_size == 0` the first call does not shrink `mem_size` either.
This holds for every order of lengths, so in particular for non-decreasing
ones. -/
theorem copy_seq_capacity (calls : List CopyCall) (copy : DBT)
    (hok : ∀ c ∈ calls, realloc_ok c.realloc)
    (hall : ∀ r ∈ copy_seq copy calls, r.1 = 0) :
    List.Chain' (fun a b : DBT => a.mem_size ≤ b.mem_size)
      ((copy_seq copy calls).map Prod.snd) ∧
    List.Forall₂ (fun (c : CopyCall) (r : Int × DBT) =>
        c.len ≤ r.2.mem_size ∧ r.2.size = c.len ∧ r.2.size ≤ r.2.mem_size)
      calls (copy_seq copy calls) ∧
    ((copy.data = none → copy.mem_size = 0) →
      List.Chain (fun a b : DBT => a.mem_size ≤ b.mem_size) copy
        ((copy_seq copy calls).map Prod.snd)) := by
  refine ⟨?_, ?_, fun hinit => copy_seq_chain calls copy hok hall hinit⟩
  · cases calls with
    | nil => exact List.chain'_nil
    | cons c cs =>
      simp only [copy_seq, List.map_cons]
      have hret : (__wt_bt_data_copy_to_dbt c.realloc c.data c.len copy).1 = 0 :=
        hall _ (by simp only [copy_seq]; exact List.mem_cons_self _ _)
      obtain ⟨_, _, ⟨buf, _, hbuf, _⟩, _⟩ :=
        copy_to_dbt_step c.realloc (hok c (List.mem_cons_self _ _)) c.data c.len copy hret
      exact copy_seq_chain cs _ (fun c' hc' => hok c' (List.mem_cons_of_mem _ hc'))
        (fun r hr => hall r (by simp only [copy_seq]; exact List.mem_cons_of_mem _ hr))
        (fun hnone => by rw [hbuf] at hnone; exact absurd hnone (Option.some_ne_none buf))
  · induction calls generalizing copy with
    | nil => exact List.Forall₂.nil
    | cons c cs ih =>
      simp only [copy_seq]
      have hret : (__wt_bt_data_copy_to_dbt c.realloc c.data c.len copy).1 = 0 :=
        hall _ (by simp only [copy_seq]; exact List.mem_cons_self _ _)
      obtain ⟨hsize, hcap, _, _⟩ :=
        copy_to_dbt_step c.realloc (hok c (List.mem_cons_self _ _)) c.data c.len copy hret
      refine List.Forall₂.cons ⟨hcap, hsize, by rw [hsize]; exact hcap⟩
        (ih _ (fun c' hc' => hok c' (List.mem_cons_of_mem _ hc'))
          (fun r hr => hall r (by simp only [copy_seq]; exact List.mem_cons_of_mem _ hr)))

/-- Witness for C9: copies of 0, 2, 2 and 5 bytes into an empty descriptor
all succeed; the descriptor's `(size, mem_size)` goes through `(0, 0)`,
`(2, 2)`, `(2, 2)`, `(5, 5)`. -/
theorem copy_seq_capacity_witness :
    ((∀ c ∈ sample_calls, realloc_ok c.realloc) ∧
      (∀ r ∈ copy_seq ⟨none, 0, 0⟩ sample_calls, r.1 = 0)) ∧
    List.Chain' (fun a b : DBT => a.mem_size ≤ b.mem_size)
      ((copy_seq ⟨none, 0, 0⟩ sample_calls).map Prod.snd) ∧
    (copy_seq ⟨none, 0, 0⟩ sample_calls).map (fun r => (r.1, r.2.size, r.2.mem_size)) =
      [(0, 0, 0), (0, 2, 2), (0, 2, 2), (0, 5, 5)] ∧
    ((copy_seq ⟨none, 0, 0⟩ sample_calls).map Prod.snd).getLast? =
      some ⟨some [1, 2, 3, 4, 5], 5, 5⟩ :=
  have hok : ∀ c ∈ sample_calls, realloc_ok c.realloc := by
    intro c hc
    simp only [sample_calls, List.mem_cons, List.mem_singleton, List.not_mem_nil, or_false] at hc
    rcases hc with rfl | rfl | rfl | rfl <;> exact realloc_grow_ok
  have hall : ∀ r ∈ copy_seq ⟨none, 0, 0⟩ sample_calls, r.1 = 0 := by decide
  ⟨⟨hok, hall⟩, (copy_seq_capacity sample_calls ⟨none, 0, 0⟩ hok hall).1, by decide, by decide⟩

/-- C10: when the descriptor needs a reallocation and `__wt_realloc` fails,
`__wt_bt_data_copy_to_dbt` returns the allocator's non-zero code, performs no
copy (the data pointer and the allocated length are exactly what the allocator
left) and leaves `size` as it was; when the failed allocator changed neither
the pointer nor the allocated length, the whole descriptor is as before the
call. -/
theorem copy_to_dbt_alloc_failure (realloc : Realloc) (data : List Nat) (len : Nat) (copy : DBT)
    (hneed : copy.data = none ∨ copy.mem_size < len)
    (hfail : (realloc copy.mem_size len copy.data).ret ≠ 0) :
    (__wt_bt_data_copy_to_dbt realloc data len copy).1 =
      (realloc copy.mem_size len copy.data).ret ∧
    (__wt_bt_data_copy_to_dbt realloc data len copy).1 ≠ 0 ∧
    (__wt_bt_data_copy_to_dbt realloc data len copy).2.size = copy.size ∧
    (__wt_bt_data_copy_to_dbt realloc data len copy).2.data =
      (realloc copy.mem_size len copy.data).data ∧
    (__wt_bt_data_copy_to_dbt realloc data len copy).2.mem_size =
      (realloc copy.mem_size len copy.data).mem_size ∧
    ((realloc copy.mem_size len copy.data).data = copy.data →
      (realloc copy.mem_size len copy.data).mem_size = copy.mem_size →
      (__wt_bt_data_copy_to_dbt realloc data len copy).2 = copy) := by
  rw [copy_to_dbt_realloc_fail realloc data len copy hneed hfail]
  refine ⟨rfl, hfail, rfl, rfl, rfl, fun hd hm => ?_⟩
  rw [hd, hm]

/-- Witness for C10: a descriptor holding 2 valid bytes in a 2-byte buffer is
asked to take 3 bytes while the allocator fails with code 12; the call returns
12 and the descriptor still holds its 2 bytes. -/
theorem copy_to_dbt_alloc_failure_witness :
    (((⟨some [1, 2], 2, 2⟩ : DBT).data = none ∨ (⟨some [1, 2], 2, 2⟩ : DBT).mem_size < 3) ∧
      (realloc_fail 12 2 3 (some [1, 2])).ret ≠ 0) ∧
    __wt_bt_data_copy_to_dbt (realloc_fail 12) [10, 20, 30] 3 ⟨some [1, 2], 2, 2⟩ =
      (12, ⟨some [1, 2], 2, 2⟩) :=
  ⟨⟨by decide, by decide⟩,
   Prod.ext
     (copy_to_dbt_alloc_failure (realloc_fail 12) [10, 20, 30] 3 ⟨some [1, 2], 2, 2⟩
       (by decide) (by decide)).1
     ((copy_to_dbt_alloc_failure (realloc_fail 12) [10, 20, 30] 3 ⟨some [1, 2], 2, 2⟩
       (by decide) (by decide)).2.2.2.2.2 rfl rfl)⟩

/-! ## Frame of the write-generation gate and range of the frontier -/

/-- C15: whether it succeeds or reports a conflict,
`__wt_page_write_gen_update` leaves `first_free`, `space_avail`, `size` and
`hdr` as they were, so a page satisfying
`space_avail == size - (first_free - hdr)` still satisfies it after the call
(and so does a page with `hdr <= first_free <= hdr + size`). -/
theorem write_gen_update_frame (WT_RESTART : Int) (page : WT_PAGE) (g : Nat) :
    (__wt_page_write_gen_update WT_RESTART page g).2.first_free = page.first_free ∧
    (__wt_page_write_gen_update WT_RESTART page g).2.space_avail = page.space_avail ∧
    (__wt_page_write_gen_update WT_RESTART page g).2.size = page.size ∧
    (__wt_page_write_gen_update WT_RESTART page g).2.hdr = page.hdr ∧
    (space_inv page → space_inv (__wt_page_write_gen_update WT_RESTART page g).2) ∧
    (frontier_inv page → frontier_inv (__wt_page_write_gen_update WT_RESTART page g).2) := by
  by_cases hg : page.write_gen = g
  · rw [write_gen_update_eq_of_eq WT_RESTART page g hg]
    exact ⟨rfl, rfl, rfl, rfl, fun h => h, fun h => h⟩
  · rw [write_gen_update_eq_of_ne WT_RESTART page g hg]
    exact ⟨rfl, rfl, rfl, rfl, fun h => h, fun h => h⟩

/-- Witness for C15: a successful call and a conflicting call on a page that
satisfies the free-space relation. -/
theorem write_gen_update_frame_witness :
    space_inv ⟨4096, 4096, 4260, 3932, 5⟩ ∧
    space_inv (__wt_page_write_gen_update (-31001) ⟨4096, 4096, 4260, 3932, 5⟩ 5).2 ∧
    space_inv (__wt_page_write_gen_update (-31001) ⟨4096, 4096, 4260, 3932, 5⟩ 4).2 ∧
    (__wt_page_write_gen_update (-31001) ⟨4096, 4096, 4260, 3932, 5⟩ 5).2 =
      ⟨4096, 4096, 4260, 3932, 6⟩ :=
  ⟨by decide,
   (write_gen_update_frame (-31001) ⟨4096, 4096, 4260, 3932, 5⟩ 5).2.2.2.2.1 (by decide),
   (write_gen_update_frame (-31001) ⟨4096, 4096, 4260, 3932, 5⟩ 4).2.2.2.2.1 (by decide),
   by decide⟩

/-- C17, as stated, fails: the call stores the address it is given, also one
below the current frontier.  With `first_free = 4260` the address `4160` leaves
`first_free = 4160`. -/
theorem set_ff_and_sa_moves_back :
    (__wt_bt_set_ff_and_sa_from_offset ⟨4096, 4096, 4260, 3932, 5⟩ 4160).first_free = 4160 ∧
    ¬ ((⟨4096, 4096, 4260, 3932, 5⟩ : WT_PAGE).first_free ≤
      (__wt_bt_set_ff_and_sa_from_offset ⟨4096, 4096, 4260, 3932, 5⟩ 4160).first_free) := by
  decide

/-- C17, amended: `__wt_bt_set_ff_and_sa_from_offset(page, p)` sets
`first_free` to `p`; so `first_free` after the call is greater than or equal to
`first_free` before it when `p` is at or past the old `first_free`, and is
below it when `p` is below the old `first_free`. -/
theorem set_ff_and_sa_frontier (page : WT_PAGE) (p : Nat) :
    (__wt_bt_set_ff_and_sa_from_offset page p).first_free = p ∧
    (page.first_free ≤ p →
      page.first_free ≤ (__wt_bt_set_ff_and_sa_from_offset page p).first_free) ∧
    (p < page.first_free →
      (__wt_bt_set_ff_and_sa_from_offset page p).first_free < page.first_free) :=
  ⟨rfl, fun h => h, fun h => h⟩

/-- Witness for C17 (amended): the frontier of a page goes from 4160 to 4260. -/
theorem set_ff_and_sa_frontier_witness :
    (4160 : Nat) ≤ 4260 ∧
    (⟨4096, 4096, 4160, 4032, 5⟩ : WT_PAGE).first_free ≤
      (__wt_bt_set_ff_and_sa_from_offset ⟨4096, 4096, 4160, 4032, 5⟩ 4260).first_free :=
  ⟨by decide, (set_ff_and_sa_frontier ⟨4096, 4096, 4160, 4032, 5⟩ 4260).2.1 (by decide)⟩

/-- C19: for a page with a 32-bit `size` and an address `p` with
`hdr <= p <= hdr + size`, neither the cast `(u_int)(p - hdr)` nor the
subtraction from `size` wraps: the stored `space_avail` is at most `size`,
`space_avail` plus the used byte count `p - hdr` is `size`, `space_avail` is
`size` exactly when `p == hdr`, and `space_avail` is `0` exactly when
`p == hdr + size`. -/
theorem set_ff_and_sa_no_wrap (page : WT_PAGE) (p : Nat) (hsize : page.size < 4294967296)
    (hlo : page.hdr ≤ p) (hhi : p ≤ page.hdr + page.size) :
    to_u_int ((p : Int) - (page.hdr : Int)) = p - page.hdr ∧
    0 ≤ (__wt_bt_set_ff_and_sa_from_offset page p).space_avail ∧
    (__wt_bt_set_ff_and_sa_from_offset page p).space_avail ≤ page.size ∧
    (__wt_bt_set_ff_and_sa_from_offset page p).space_avail + (p - page.hdr) = page.size ∧
    ((__wt_bt_set_ff_and_sa_from_offset page p).space_avail = page.size ↔ p = page.hdr) ∧
    ((__wt_bt_set_ff_and_sa_from_offset page p).space_avail = 0 ↔
      p = page.hdr + page.size) := by
  have hsa := set_ff_and_sa_space_avail page p
  have hcast := to_u_int_cast ((p : Int) - (page.hdr : Int))
  refine ⟨by omega, Nat.zero_le _, by omega, by omega, by omega, by omega⟩

/-- Witness for C19: a 4096-byte page at address 4096 with the frontier at
the header start, 64 bytes in, and at the end. -/
theorem set_ff_and_sa_no_wrap_witness :
    ((4096 : Nat) < 4294967296 ∧ (4096 : Nat) ≤ 4160 ∧ (4160 : Nat) ≤ 4096 + 4096) ∧
    (__wt_bt_set_ff_and_sa_from_offset ⟨4096, 4096, 0, 0, 5⟩ 4160).space_avail + (4160 - 4096)
      = 4096 ∧
    (__wt_bt_set_ff_and_sa_from_offset ⟨4096, 4096, 0, 0, 5⟩ 4096).space_avail = 4096 ∧
    (__wt_bt_set_ff_and_sa_from_offset ⟨4096, 4096, 0, 0, 5⟩ 8192).space_avail = 0 :=
  ⟨⟨by decide, by decide, by decide⟩,
   (set_ff_and_sa_no_wrap ⟨4096, 4096, 0, 0, 5⟩ 4160 (by decide) (by decide) (by decide)).2.2.2.1,
   ((set_ff_and_sa_no_wrap ⟨4096, 4096, 0, 0, 5⟩ 4096 (by decide) (by decide)
      (by decide)).2.2.2.2.1).mpr rfl,
   ((set_ff_and_sa_no_wrap ⟨4096, 4096, 0, 0, 5⟩ 8192 (by decide) (by decide)
      (by decide)).2.2.2.2.2).mpr rfl⟩

/-! ## Reuse of the descriptor's allocation -/

/-- C18: for a descriptor that has a buffer (`data` not NULL) with
`mem_size >= len`, `__wt_bt_data_copy_to_dbt` returns `0` whatever the
allocator would do, keeps `mem_size` and the buffer, of which only the first
`len` bytes are overwritten by the source, and sets `size` to `len`; and the
allocator has a say in the outcome exactly when `data` is NULL or
`mem_size < len`. -/
theorem copy_to_dbt_reuse (data : List Nat) (len : Nat) (copy : DBT) :
    (∀ buf, copy.data = some buf → len ≤ copy.mem_size → ∀ realloc : Realloc,
      __wt_bt_data_copy_to_dbt realloc data len copy =
        (0, ⟨some (memcpy buf data len), len, copy.mem_size⟩)) ∧
    (∀ buf : List Nat, len ≤ data.length →
      (memcpy buf data len).take len = data.take len ∧
      (memcpy buf data len).drop len = buf.drop len ∧
      (len ≤ buf.length → (memcpy buf data len).length = buf.length)) ∧
    ((copy.data = none ∨ copy.mem_size < len) ↔
      ∃ r1 r2 : Realloc, __wt_bt_data_copy_to_dbt r1 data len copy ≠
        __wt_bt_data_copy_to_dbt r2 data len copy) := by
  refine ⟨fun buf hbuf hle realloc => ?_, fun buf hlen => ⟨memcpy_take buf data len hlen,
    memcpy_drop buf data len hlen, fun hb => ?_⟩, ⟨fun hneed => ?_, fun hdiff => ?_⟩⟩
  · have hg : ¬ (copy.data = none ∨ copy.mem_size < len) := by
      rintro (hnone | hlt)
      · rw [hbuf] at hnone; exact Option.some_ne_none buf hnone
      · omega
    rw [copy_to_dbt_no_realloc realloc data len copy hg, hbuf]
    rfl
  · unfold memcpy
    rw [List.length_append, List.length_take, List.length_drop, Nat.min_eq_left hlen]
    omega
  · refine ⟨realloc_fail 1, realloc_fail 2, fun heq => ?_⟩
    have h1 : (realloc_fail 1 copy.mem_size len copy.data).ret ≠ 0 := by
      show (1 : Int) ≠ 0
      decide
    have h2 : (realloc_fail 2 copy.mem_size len copy.data).ret ≠ 0 := by
      show (2 : Int) ≠ 0
      decide
    rw [copy_to_dbt_realloc_fail (realloc_fail 1) data len copy hneed h1,
      copy_to_dbt_realloc_fail (realloc_fail 2) data len copy hneed h2] at heq
    have hfst : (1 : Int) = 2 := congrArg Prod.fst heq
    exact absurd hfst (by decide)
  · by_contra hg
    obtain ⟨r1, r2, hne⟩ := hdiff
    rw [copy_to_dbt_no_realloc r1 data len copy hg,
      copy_to_dbt_no_realloc r2 data len copy hg] at hne
    exact hne rfl

/-- Witness for C18: two bytes are copied into a descriptor that holds a
4-byte buffer, with an allocator that would fail: the call succeeds, the
buffer keeps its last two bytes and `mem_size` stays 4. -/
theorem copy_to_dbt_reuse_witness :
    ((⟨some [1, 2, 3, 4], 4, 4⟩ : DBT).data = some [1, 2, 3, 4] ∧
      (2 : Nat) ≤ (⟨some [1, 2, 3, 4], 4, 4⟩ : DBT).mem_size) ∧
    __wt_bt_data_copy_to_dbt (realloc_fail 12) [10, 20] 2 ⟨some [1, 2, 3, 4], 4, 4⟩ =
      (0, ⟨some [10, 20, 3, 4], 2, 4⟩) :=
  ⟨⟨rfl, by decide⟩,
   (copy_to_dbt_reuse [10, 20] 2 ⟨some [1, 2, 3, 4], 4, 4⟩).1 [1, 2, 3, 4] rfl (by decide)
     (realloc_fail 12)⟩

/-! ## Build verification -/

/-- C11: `__wt_bt_build_verify` returns `0` if and only if each of the seven
size-checked structures has its contractual size, each of the four aligned
structures has a size that `WT_ALIGN` to a 4-byte boundary leaves unchanged,
and `size_t` is at least 4 bytes wide; in every other case it returns
`WT_ERROR`. -/
theorem build_verify_ok_iff (WT_ERROR : Int) (hE : WT_ERROR ≠ 0) (b : BUILD) :
    ((__wt_bt_build_verify WT_ERROR b).1 = 0 ↔
      (b.sizeof_WT_COL = b.WT_COL_SIZE ∧ b.sizeof_WT_ITEM = b.WT_ITEM_SIZE ∧
        b.sizeof_WT_OFF = b.WT_OFF_SIZE ∧ b.sizeof_WT_OVFL = b.WT_OVFL_SIZE ∧
        b.sizeof_WT_PAGE_DESC = b.WT_PAGE_DESC_SIZE ∧
        b.sizeof_WT_PAGE_HDR = b.WT_PAGE_HDR_SIZE ∧ b.sizeof_WT_ROW = b.WT_ROW_SIZE) ∧
      (WT_ALIGN b.sizeof_WT_OFF 4 = b.sizeof_WT_OFF ∧
        WT_ALIGN b.sizeof_WT_OVFL 4 = b.sizeof_WT_OVFL ∧
        WT_ALIGN b.sizeof_WT_PAGE_HDR 4 = b.sizeof_WT_PAGE_HDR ∧
        WT_ALIGN b.sizeof_WT_TOC_UPDATE 4 = b.sizeof_WT_TOC_UPDATE) ∧
      4 ≤ b.sizeof_size_t) ∧
    ((__wt_bt_build_verify WT_ERROR b).1 ≠ 0 → (__wt_bt_build_verify WT_ERROR b).1 = WT_ERROR) := by
  have hs : size_loop (size_check b) = none ↔
      (b.sizeof_WT_COL = b.WT_COL_SIZE ∧ b.sizeof_WT_ITEM = b.WT_ITEM_SIZE ∧
        b.sizeof_WT_OFF = b.WT_OFF_SIZE ∧ b.sizeof_WT_OVFL = b.WT_OVFL_SIZE ∧
        b.sizeof_WT_PAGE_DESC = b.WT_PAGE_DESC_SIZE ∧
        b.sizeof_WT_PAGE_HDR = b.WT_PAGE_HDR_SIZE ∧ b.sizeof_WT_ROW = b.WT_ROW_SIZE) := by
    rw [size_loop_none_iff]
    simp only [size_check, List.forall_mem_cons, List.not_mem_nil, false_imp_iff,
      implies_true, and_true]
  have ha : align_loop (align_check b) = none ↔
      (WT_ALIGN b.sizeof_WT_OFF 4 = b.sizeof_WT_OFF ∧
        WT_ALIGN b.sizeof_WT_OVFL 4 = b.sizeof_WT_OVFL ∧
        WT_ALIGN b.sizeof_WT_PAGE_HDR 4 = b.sizeof_WT_PAGE_HDR ∧
        WT_ALIGN b.sizeof_WT_TOC_UPDATE 4 = b.sizeof_WT_TOC_UPDATE) := by
    rw [align_loop_none_iff]
    simp only [align_check, sizeof_u_int32_t, List.forall_mem_cons, List.not_mem_nil,
      false_imp_iff, implies_true, and_true]
  unfold __wt_bt_build_verify
  cases h1 : size_loop (size_check b) with
  | some e =>
    have hn : ¬ size_loop (size_check b) = none := by rw [h1]; exact Option.some_ne_none e
    rw [hs] at hn
    exact ⟨⟨fun h0 => absurd h0 hE, fun h => absurd h.1 hn⟩, fun _ => rfl⟩
  | none =>
    have hsz := hs.mp h1
    cases h2 : align_loop (align_check b) with
    | some e =>
      have hn : ¬ align_loop (align_check b) = none := by rw [h2]; exact Option.some_ne_none e
      rw [ha] at hn
      exact ⟨⟨fun h0 => absurd h0 hE, fun h => absurd h.2.1 hn⟩, fun _ => rfl⟩
    | none =>
      have hal := ha.mp h2
      by_cases h3 : b.sizeof_size_t < sizeof_u_int32_t
      · dsimp only
        rw [if_pos h3]
        refine ⟨⟨fun h0 => absurd h0 hE, fun h => ?_⟩, fun _ => rfl⟩
        have h4 : b.sizeof_size_t < 4 := h3
        omega
      · dsimp only
        rw [if_neg h3]
        have h4 : ¬ b.sizeof_size_t < 4 := h3
        exact ⟨⟨fun _ => ⟨hsz, hal, by omega⟩, fun _ => rfl⟩, fun h => absurd rfl h⟩

/-- Witness for C11: a build in which every structure has its contractual
size passes, and the build of scenario C does not. -/
theorem build_verify_ok_iff_witness :
    (-31000 : Int) ≠ 0 ∧
    (__wt_bt_build_verify (-31000) sample_build).1 = 0 ∧
    (__wt_bt_build_verify (-31000) mispadded_build).1 = -31000 :=
  ⟨by decide,
   ((build_verify_ok_iff (-31000) (by decide) sample_build).1).mpr (by decide),
   (build_verify_ok_iff (-31000) (by decide) mispadded_build).2 (by decide)⟩

/-- C12: whenever at least one size-checked structure differs from its
contractual size, `__wt_bt_build_verify` returns `WT_ERROR`, and the message it
reports is the wrong-size message for the first mismatching structure in the
order `WT_COL`, `WT_ITEM`, `WT_OFF`, `WT_OVFL`, `WT_PAGE_DESC`, `WT_PAGE_HDR`,
`WT_ROW`: it carries that structure's name, its expected size and its actual
size, whatever the alignments and the width of `size_t` are. -/
theorem build_verify_wrong_size (WT_ERROR : Int) (b : BUILD)
    (h : ¬ (b.sizeof_WT_COL = b.WT_COL_SIZE ∧ b.sizeof_WT_ITEM = b.WT_ITEM_SIZE ∧
      b.sizeof_WT_OFF = b.WT_OFF_SIZE ∧ b.sizeof_WT_OVFL = b.WT_OVFL_SIZE ∧
      b.sizeof_WT_PAGE_DESC = b.WT_PAGE_DESC_SIZE ∧
      b.sizeof_WT_PAGE_HDR = b.WT_PAGE_HDR_SIZE ∧ b.sizeof_WT_ROW = b.WT_ROW_SIZE)) :
    (__wt_bt_build_verify WT_ERROR b).1 = WT_ERROR ∧
    (∃ name expected got, (__wt_bt_build_verify WT_ERROR b).2 =
      some (BuildError.wrong_size name expected got) ∧ got ≠ expected) ∧
    (b.sizeof_WT_COL ≠ b.WT_COL_SIZE →
      __wt_bt_build_verify WT_ERROR b =
        (WT_ERROR, some (BuildError.wrong_size "WT_COL" b.WT_COL_SIZE b.sizeof_WT_COL))) ∧
    (b.sizeof_WT_COL = b.WT_COL_SIZE → b.sizeof_WT_ITEM ≠ b.WT_ITEM_SIZE →
      __wt_bt_build_verify WT_ERROR b =
        (WT_ERROR, some (BuildError.wrong_size "WT_ITEM" b.WT_ITEM_SIZE b.sizeof_WT_ITEM))) ∧
    (b.sizeof_WT_COL = b.WT_COL_SIZE → b.sizeof_WT_ITEM = b.WT_ITEM_SIZE →
      b.sizeof_WT_OFF ≠ b.WT_OFF_SIZE →
      __wt_bt_build_verify WT_ERROR b =
        (WT_ERROR, some (BuildError.wrong_size "WT_OFF" b.WT_OFF_SIZE b.sizeof_WT_OFF))) ∧
    (b.sizeof_WT_COL = b.WT_COL_SIZE → b.sizeof_WT_ITEM = b.WT_ITEM_SIZE →
      b.sizeof_WT_OFF = b.WT_OFF_SIZE → b.sizeof_WT_OVFL ≠ b.WT_OVFL_SIZE →
      __wt_bt_build_verify WT_ERROR b =
        (WT_ERROR, some (BuildError.wrong_size "WT_OVFL" b.WT_OVFL_SIZE b.sizeof_WT_OVFL))) ∧
    (b.sizeof_WT_COL = b.WT_COL_SIZE → b.sizeof_WT_ITEM = b.WT_ITEM_SIZE →
      b.sizeof_WT_OFF = b.WT_OFF_SIZE → b.sizeof_WT_OVFL = b.WT_OVFL_SIZE →
      b.sizeof_WT_PAGE_DESC ≠ b.WT_PAGE_DESC_SIZE →
      __wt_bt_build_verify WT_ERROR b =
        (WT_ERROR,
          some (BuildError.wrong_size "WT_PAGE_DESC" b.WT_PAGE_DESC_SIZE b.sizeof_WT_PAGE_DESC))) ∧
    (b.sizeof_WT_COL = b.WT_COL_SIZE → b.sizeof_WT_ITEM = b.WT_ITEM_SIZE →
      b.sizeof_WT_OFF = b.WT_OFF_SIZE → b.sizeof_WT_OVFL = b.WT_OVFL_SIZE →
      b.sizeof_WT_PAGE_DESC = b.WT_PAGE_DESC_SIZE → b.sizeof_WT_PAGE_HDR ≠ b.WT_PAGE_HDR_SIZE →
      __wt_bt_build_verify WT_ERROR b =
        (WT_ERROR,
          some (BuildError.wrong_size "WT_PAGE_HDR" b.WT_PAGE_HDR_SIZE b.sizeof_WT_PAGE_HDR))) ∧
    (b.sizeof_WT_COL = b.WT_COL_SIZE → b.sizeof_WT_ITEM = b.WT_ITEM_SIZE →
      b.sizeof_WT_OFF = b.WT_OFF_SIZE → b.sizeof_WT_OVFL = b.WT_OVFL_SIZE →
      b.sizeof_WT_PAGE_DESC = b.WT_PAGE_DESC_SIZE →
      b.sizeof_WT_PAGE_HDR = b.WT_PAGE_HDR_SIZE → b.sizeof_WT_ROW ≠ b.WT_ROW_SIZE →
      __wt_bt_build_verify WT_ERROR b =
        (WT_ERROR, some (BuildError.wrong_size "WT_ROW" b.WT_ROW_SIZE b.sizeof_WT_ROW))) := by
  have c0 : b.sizeof_WT_COL ≠ b.WT_COL_SIZE →
      __wt_bt_build_verify WT_ERROR b =
        (WT_ERROR, some (BuildError.wrong_size "WT_COL" b.WT_COL_SIZE b.sizeof_WT_COL)) := by
    intro hne
    simp only [__wt_bt_build_verify, size_check, size_loop, if_neg hne]
  have c1 : b.sizeof_WT_COL = b.WT_COL_SIZE → b.sizeof_WT_ITEM ≠ b.WT_ITEM_SIZE →
      __wt_bt_build_verify WT_ERROR b =
        (WT_ERROR, some (BuildError.wrong_size "WT_ITEM" b.WT_ITEM_SIZE b.sizeof_WT_ITEM)) := by
    intro e0 hne
    simp only [__wt_bt_build_verify, size_check, size_loop, if_pos e0, if_neg hne]
  have c2 : b.sizeof_WT_COL = b.WT_COL_SIZE → b.sizeof_WT_ITEM = b.WT_ITEM_SIZE →
      b.sizeof_WT_OFF ≠ b.WT_OFF_SIZE →
      __wt_bt_build_verify WT_ERROR b =
        (WT_ERROR, some (BuildError.wrong_size "WT_OFF" b.WT_OFF_SIZE b.sizeof_WT_OFF)) := by
    intro e0 e1 hne
    simp only [__wt_bt_build_verify, size_check, size_loop, if_pos e0, if_pos e1, if_neg hne]
  have c3 : b.sizeof_WT_COL = b.WT_COL_SIZE → b.sizeof_WT_ITEM = b.WT_ITEM_SIZE →
      b.sizeof_WT_OFF = b.WT_OFF_SIZE → b.sizeof_WT_OVFL ≠ b.WT_OVFL_SIZE →
      __wt_bt_build_verify WT_ERROR b =
        (WT_ERROR, some (BuildError.wrong_size "WT_OVFL" b.WT_OVFL_SIZE b.sizeof_WT_OVFL)) := by
    intro e0 e1 e2 hne
    simp only [__wt_bt_build_verify, size_check, size_loop, if_pos e0, if_pos e1, if_pos e2, if_neg hne]
  have c4 : b.sizeof_WT_COL = b.WT_COL_SIZE → b.sizeof_WT_ITEM = b.WT_ITEM_SIZE →
      b.sizeof_WT_OFF = b.WT_OFF_SIZE → b.sizeof_WT_OVFL = b.WT_OVFL_SIZE →
      b.sizeof_WT_PAGE_DESC ≠ b.WT_PAGE_DESC_SIZE →
      __wt_bt_build_verify WT_ERROR b =
        (WT_ERROR,
          some (BuildError.wrong_size "WT_PAGE_DESC" b.WT_PAGE_DESC_SIZE b.sizeof_WT_PAGE_DESC)) := by
    intro e0 e1 e2 e3 hne
    simp only [__wt_bt_build_verify, size_check, size_loop, if_pos e0, if_pos e1, if_pos e2, if_pos e3, if_neg hne]
  have c5 : b.sizeof_WT_COL = b.WT_COL_SIZE → b.sizeof_WT_ITEM = b.WT_ITEM_SIZE →
      b.sizeof_WT_OFF = b.WT_OFF_SIZE → b.sizeof_WT_OVFL = b.WT_OVFL_SIZE →
      b.sizeof_WT_PAGE_DESC = b.WT_PAGE_DESC_SIZE → b.sizeof_WT_PAGE_HDR ≠ b.WT_PAGE_HDR_SIZE →
      __wt_bt_build_verify WT_ERROR b =
        (WT_ERROR,
          some (BuildError.wrong_size "WT_PAGE_HDR" b.WT_PAGE_HDR_SIZE b.sizeof_WT_PAGE_HDR)) := by
    intro e0 e1 e2 e3 e4 hne
    simp only [__wt_bt_build_verify, size_check, size_loop, if_pos e0, if_pos e1, if_pos e2, if_pos e3, if_pos e4, if_neg hne]
  have c6 : b.sizeof_WT_COL = b.WT_COL_SIZE → b.sizeof_WT_ITEM = b.WT_ITEM_SIZE →
      b.sizeof_WT_OFF = b.WT_OFF_SIZE → b.sizeof_WT_OVFL = b.WT_OVFL_SIZE →
      b.sizeof_WT_PAGE_DESC = b.WT_PAGE_DESC_SIZE →
      b.sizeof_WT_PAGE_HDR = b.WT_PAGE_HDR_SIZE → b.sizeof_WT_ROW ≠ b.WT_ROW_SIZE →
      __wt_bt_build_verify WT_ERROR b =
        (WT_ERROR, some (BuildError.wrong_size "WT_ROW" b.WT_ROW_SIZE b.sizeof_WT_ROW)) := by
    intro e0 e1 e2 e3 e4 e5 hne
    simp only [__wt_bt_build_verify, size_check, size_loop, if_pos e0, if_pos e1, if_pos e2, if_pos e3, if_pos e4, if_pos e5, if_neg hne]
  refine ⟨?_, ?_, c0, c1, c2, c3, c4, c5, c6⟩
  · by_cases e0 : b.sizeof_WT_COL = b.WT_COL_SIZE
    · by_cases e1 : b.sizeof_WT_ITEM = b.WT_ITEM_SIZE
      · by_cases e2 : b.sizeof_WT_OFF = b.WT_OFF_SIZE
        · by_cases e3 : b.sizeof_WT_OVFL = b.WT_OVFL_SIZE
          · by_cases e4 : b.sizeof_WT_PAGE_DESC = b.WT_PAGE_DESC_SIZE
            · by_cases e5 : b.sizeof_WT_PAGE_HDR = b.WT_PAGE_HDR_SIZE
              · by_cases e6 : b.sizeof_WT_ROW = b.WT_ROW_SIZE
                · exact absurd ⟨e0, e1, e2, e3, e4, e5, e6⟩ h
                · rw [c6 e0 e1 e2 e3 e4 e5 e6]
              · rw [c5 e0 e1 e2 e3 e4 e5]
            · rw [c4 e0 e1 e2 e3 e4]
          · rw [c3 e0 e1 e2 e3]
        · rw [c2 e0 e1 e2]
      · rw [c1 e0 e1]
    · rw [c0 e0]
  · by_cases e0 : b.sizeof_WT_COL = b.WT_COL_SIZE
    · by_cases e1 : b.sizeof_WT_ITEM = b.WT_ITEM_SIZE
      · by_cases e2 : b.sizeof_WT_OFF = b.WT_OFF_SIZE
        · by_cases e3 : b.sizeof_WT_OVFL = b.WT_OVFL_SIZE
          · by_cases e4 : b.sizeof_WT_PAGE_DESC = b.WT_PAGE_DESC_SIZE
            · by_cases e5 : b.sizeof_WT_PAGE_HDR = b.WT_PAGE_HDR_SIZE
              · by_cases e6 : b.sizeof_WT_ROW = b.WT_ROW_SIZE
                · exact absurd ⟨e0, e1, e2, e3, e4, e5, e6⟩ h
                · rw [c6 e0 e1 e2 e3 e4 e5 e6]
                  exact ⟨_, _, _, rfl, e6⟩
              · rw [c5 e0 e1 e2 e3 e4 e5]
                exact ⟨_, _, _, rfl, e5⟩
            · rw [c4 e0 e1 e2 e3 e4]
              exact ⟨_, _, _, rfl, e4⟩
          · rw [c3 e0 e1 e2 e3]
            exact ⟨_, _, _, rfl, e3⟩
        · rw [c2 e0 e1 e2]
          exact ⟨_, _, _, rfl, e2⟩
      · rw [c1 e0 e1]
        exact ⟨_, _, _, rfl, e1⟩
    · rw [c0 e0]
      exact ⟨_, _, _, rfl, e0⟩

/-- Witness for C12, scenario C: with a page header of 68 bytes where 64 are
expected (and a misaligned update record and a narrow `size_t` besides), the
verification returns `WT_ERROR` and reports `WT_PAGE_HDR`, expected 64, got 68. -/
theorem build_verify_wrong_size_witness :
    ¬ (mispadded_build.sizeof_WT_COL = mispadded_build.WT_COL_SIZE ∧
      mispadded_build.sizeof_WT_ITEM = mispadded_build.WT_ITEM_SIZE ∧
      mispadded_build.sizeof_WT_OFF = mispadded_build.WT_OFF_SIZE ∧
      mispadded_build.sizeof_WT_OVFL = mispadded_build.WT_OVFL_SIZE ∧
      mispadded_build.sizeof_WT_PAGE_DESC = mispadded_build.WT_PAGE_DESC_SIZE ∧
      mispadded_build.sizeof_WT_PAGE_HDR = mispadded_build.WT_PAGE_HDR_SIZE ∧
      mispadded_build.sizeof_WT_ROW = mispadded_build.WT_ROW_SIZE) ∧
    (__wt_bt_build_verify (-31000) mispadded_build).1 = -31000 ∧
    __wt_bt_build_verify (-31000) mispadded_build =
      (-31000, some (BuildError.wrong_size "WT_PAGE_HDR" 64 68)) :=
  ⟨by decide,
   (build_verify_wrong_size (-31000) mispadded_build (by decide)).1,
   (build_verify_wrong_size (-31000) mispadded_build (by decide)).2.2.2.2.2.2.2.1
     (by decide) (by decide) (by decide) (by decide) (by decide) (by decide)⟩

/-! ## Diagnostic labels -/

/-- C13: `__wt_bt_hdr_type` is a total function of the header's type tag.
With the ten page-type constants pairwise different, each of them maps to its
own fixed label, every tag that is none of the ten maps to `"unknown"`, and no
result is the empty string. -/
theorem hdr_type_labels (k : PageTypes) (hk : k.distinct) :
    (∀ hdr : WT_PAGE_HDR, hdr.type = k.WT_PAGE_DESCRIPT → __wt_bt_hdr_type k hdr = "database descriptor page") ∧
    (∀ hdr : WT_PAGE_HDR, hdr.type = k.WT_PAGE_COL_FIX → __wt_bt_hdr_type k hdr = "column fixed-length leaf") ∧
    (∀ hdr : WT_PAGE_HDR, hdr.type = k.WT_PAGE_COL_INT → __wt_bt_hdr_type k hdr = "column internal") ∧
    (∀ hdr : WT_PAGE_HDR, hdr.type = k.WT_PAGE_COL_VAR → __wt_bt_hdr_type k hdr = "column variable-length leaf") ∧
    (∀ hdr : WT_PAGE_HDR, hdr.type = k.WT_PAGE_DUP_INT → __wt_bt_hdr_type k hdr = "duplicate internal") ∧
    (∀ hdr : WT_PAGE_HDR, hdr.type = k.WT_PAGE_DUP_LEAF → __wt_bt_hdr_type k hdr = "duplicate leaf") ∧
    (∀ hdr : WT_PAGE_HDR, hdr.type = k.WT_PAGE_OVFL → __wt_bt_hdr_type k hdr = "overflow") ∧
    (∀ hdr : WT_PAGE_HDR, hdr.type = k.WT_PAGE_ROW_INT → __wt_bt_hdr_type k hdr = "row internal") ∧
    (∀ hdr : WT_PAGE_HDR, hdr.type = k.WT_PAGE_ROW_LEAF → __wt_bt_hdr_type k hdr = "row leaf") ∧
    (∀ hdr : WT_PAGE_HDR, hdr.type = k.WT_PAGE_INVALID → __wt_bt_hdr_type k hdr = "invalid") ∧
    (∀ hdr : WT_PAGE_HDR, hdr.type ∉ k.tags → __wt_bt_hdr_type k hdr = "unknown") ∧
    (∀ hdr : WT_PAGE_HDR, __wt_bt_hdr_type k hdr ≠ "") := by
  have hd := hk
  simp only [PageTypes.distinct, PageTypes.tags, List.nodup_cons, List.mem_cons,
    List.mem_singleton, List.not_mem_nil, or_false, not_or, List.nodup_nil, and_true,
    not_false_eq_true] at hd
  refine ⟨fun hdr h => ?_, fun hdr h => ?_, fun hdr h => ?_, fun hdr h => ?_, fun hdr h => ?_, fun hdr h => ?_, fun hdr h => ?_, fun hdr h => ?_, fun hdr h => ?_, fun hdr h => ?_, fun hdr h => ?_, fun hdr => ?_⟩
  iterate 10
    focus
      rcases hdr_type_cases k hdr with
        ⟨e, l⟩ | ⟨e, l⟩ | ⟨e, l⟩ | ⟨e, l⟩ | ⟨e, l⟩ | ⟨e, l⟩ | ⟨e, l⟩ | ⟨e, l⟩ | ⟨e, l⟩ | ⟨e, l⟩ | ⟨e, l⟩
      all_goals first
        | exact absurd (by simp [PageTypes.tags, h]) e
        | (rw [h] at e; first | exact l | (simp [e] at hd))
  · exact not_not.mp (fun hne => h ((hdr_type_known_iff k hdr).mpr hne))
  · rcases hdr_type_cases k hdr with
      ⟨e, l⟩ | ⟨e, l⟩ | ⟨e, l⟩ | ⟨e, l⟩ | ⟨e, l⟩ | ⟨e, l⟩ | ⟨e, l⟩ | ⟨e, l⟩ | ⟨e, l⟩ | ⟨e, l⟩ | ⟨e, l⟩
    all_goals
      rw [l]
      decide

/-- Witness for C13: with the page types numbered 1 to 9 and 0, tag 7 is an
overflow page, tag 0 is the invalid page and tag 200 is unknown. -/
theorem hdr_type_labels_witness :
    sample_page_types.distinct ∧
    __wt_bt_hdr_type sample_page_types ⟨7⟩ = "overflow" ∧
    __wt_bt_hdr_type sample_page_types ⟨0⟩ = "invalid" ∧
    __wt_bt_hdr_type sample_page_types ⟨200⟩ = "unknown" :=
  ⟨by unfold PageTypes.distinct; decide,
   (hdr_type_labels sample_page_types (by unfold PageTypes.distinct; decide)).2.2.2.2.2.2.1
     ⟨7⟩ rfl,
   (hdr_type_labels sample_page_types (by unfold PageTypes.distinct; decide)).2.2.2.2.2.2.2.2.2.1
     ⟨0⟩ rfl,
   (hdr_type_labels sample_page_types (by unfold PageTypes.distinct; decide)).2.2.2.2.2.2.2.2.2.2.1
     ⟨200⟩ (by decide)⟩

/-- C14: `__wt_bt_item_type` is a total function of the item's type tag.
With the ten item-type constants pairwise different, each of them maps to its
own fixed label, every tag that is none of the ten maps to `"unknown"`, and no
result is the empty string. -/
theorem item_type_labels (k : ItemTypes) (hk : k.distinct) :
    (∀ t : Nat, t = k.WT_ITEM_KEY → __wt_bt_item_type k t = "key") ∧
    (∀ t : Nat, t = k.WT_ITEM_KEY_OVFL → __wt_bt_item_type k t = "key-overflow") ∧
    (∀ t : Nat, t = k.WT_ITEM_DUPKEY → __wt_bt_item_type k t = "duplicate-key") ∧
    (∀ t : Nat, t = k.WT_ITEM_DUPKEY_OVFL → __wt_bt_item_type k t = "duplicate-key-overflow") ∧
    (∀ t : Nat, t = k.WT_ITEM_DATA → __wt_bt_item_type k t = "data") ∧
    (∀ t : Nat, t = k.WT_ITEM_DATA_OVFL → __wt_bt_item_type k t = "data-overflow") ∧
    (∀ t : Nat, t = k.WT_ITEM_DUP → __wt_bt_item_type k t = "duplicate") ∧
    (∀ t : Nat, t = k.WT_ITEM_DUP_OVFL → __wt_bt_item_type k t = "duplicate-overflow") ∧
    (∀ t : Nat, t = k.WT_ITEM_DEL → __wt_bt_item_type k t = "deleted") ∧
    (∀ t : Nat, t = k.WT_ITEM_OFF → __wt_bt_item_type k t = "off-page") ∧
    (∀ t : Nat, t ∉ k.tags → __wt_bt_item_type k t = "unknown") ∧
    (∀ t : Nat, __wt_bt_item_type k t ≠ "") := by
  have hd := hk
  simp only [ItemTypes.distinct, ItemTypes.tags, List.nodup_cons, List.mem_cons,
    List.mem_singleton, List.not_mem_nil, or_false, not_or, List.nodup_nil, and_true,
    not_false_eq_true] at hd
  refine ⟨fun t h => ?_, fun t h => ?_, fun t h => ?_, fun t h => ?_, fun t h => ?_, fun t h => ?_, fun t h => ?_, fun t h => ?_, fun t h => ?_, fun t h => ?_, fun t h => ?_, fun t => ?_⟩
  iterate 10
    focus
      rcases item_type_cases k t with
        ⟨e, l⟩ | ⟨e, l⟩ | ⟨e, l⟩ | ⟨e, l⟩ | ⟨e, l⟩ | ⟨e, l⟩ | ⟨e, l⟩ | ⟨e, l⟩ | ⟨e, l⟩ | ⟨e, l⟩ | ⟨e, l⟩
      all_goals first
        | exact absurd (by simp [ItemTypes.tags, h]) e
        | (rw [h] at e; first | exact l | (simp [e] at hd))
  · exact not_not.mp (fun hne => h ((item_type_known_iff k t).mpr hne))
  · rcases item_type_cases k t with
      ⟨e, l⟩ | ⟨e, l⟩ | ⟨e, l⟩ | ⟨e, l⟩ | ⟨e, l⟩ | ⟨e, l⟩ | ⟨e, l⟩ | ⟨e, l⟩ | ⟨e, l⟩ | ⟨e, l⟩ | ⟨e, l⟩
    all_goals
      rw [l]
      decide

/-- Witness for C14: with the item types numbered 1 to 10, tag 4 is a
duplicate-key-overflow item, tag 10 an off-page item and tag 0 is unknown. -/
theorem item_type_labels_witness :
    sample_item_types.distinct ∧
    __wt_bt_item_type sample_item_types 4 = "duplicate-key-overflow" ∧
    __wt_bt_item_type sample_item_types 10 = "off-page" ∧
    __wt_bt_item_type sample_item_types 0 = "unknown" :=
  ⟨by unfold ItemTypes.distinct; decide,
   (item_type_labels sample_item_types (by unfold ItemTypes.distinct; decide)).2.2.2.1 4 rfl,
   (item_type_labels sample_item_types (by unfold ItemTypes.distinct; decide)).2.2.2.2.2.2.2.2.2.1
     10 rfl,
   (item_type_labels sample_item_types (by unfold ItemTypes.distinct; decide)).2.2.2.2.2.2.2.2.2.2.1
     0 (by decide)⟩

/-- C20: the diagnostic labels are unambiguous.  With the ten page-type
constants pairwise different and the ten item-type constants pairwise
different, the ten page labels are pairwise different, the ten item labels are
pairwise different, none of them is `"unknown"`, and a label other than
`"unknown"` is the label of exactly one tag, which is a defined one. -/
theorem labels_unambiguous (kp : PageTypes) (ki : ItemTypes) (hp : kp.distinct)
    (hi : ki.distinct) :
    (kp.tags.map (fun t => __wt_bt_hdr_type kp ⟨t⟩)).Nodup ∧
    (ki.tags.map (fun t => __wt_bt_item_type ki t)).Nodup ∧
    "unknown" ∉ kp.tags.map (fun t => __wt_bt_hdr_type kp ⟨t⟩) ∧
    "unknown" ∉ ki.tags.map (fun t => __wt_bt_item_type ki t) ∧
    (∀ h1 h2 : WT_PAGE_HDR, __wt_bt_hdr_type kp h1 ≠ "unknown" →
      __wt_bt_hdr_type kp h1 = __wt_bt_hdr_type kp h2 →
      h1.type ∈ kp.tags ∧ h1.type = h2.type) ∧
    (∀ t1 t2 : Nat, __wt_bt_item_type ki t1 ≠ "unknown" →
      __wt_bt_item_type ki t1 = __wt_bt_item_type ki t2 →
      t1 ∈ ki.tags ∧ t1 = t2) := by
  refine ⟨?_, ?_, ?_, ?_, ?_, ?_⟩
  · refine List.Nodup.map_on (fun x hx y _ hxy => ?_) hp
    exact hdr_type_inj kp ⟨x⟩ ⟨y⟩ ((hdr_type_known_iff kp ⟨x⟩).mp hx) hxy
  · refine List.Nodup.map_on (fun x hx y _ hxy => ?_) hi
    exact item_type_inj ki x y ((item_type_known_iff ki x).mp hx) hxy
  · intro hmem
    obtain ⟨t, ht, hl⟩ := List.mem_map.mp hmem
    exact (hdr_type_known_iff kp ⟨t⟩).mp ht hl
  · intro hmem
    obtain ⟨t, ht, hl⟩ := List.mem_map.mp hmem
    exact (item_type_known_iff ki t).mp ht hl
  · intro h1 h2 hne heq
    exact ⟨(hdr_type_known_iff kp h1).mpr hne, hdr_type_inj kp h1 h2 hne heq⟩
  · intro t1 t2 hne heq
    exact ⟨(item_type_known_iff ki t1).mpr hne, item_type_inj ki t1 t2 hne heq⟩

/-- Witness for C20: with the page types numbered 1 to 9 and 0 and the item
types numbered 1 to 10, the ten page labels are pairwise different, and so are
the ten item labels. -/
theorem labels_unambiguous_witness :
    (sample_page_types.distinct ∧ sample_item_types.distinct) ∧
    (sample_page_types.tags.map (fun t => __wt_bt_hdr_type sample_page_types ⟨t⟩)).Nodup ∧
    (sample_item_types.tags.map (fun t => __wt_bt_item_type sample_item_types t)).Nodup ∧
    sample_page_types.tags.map (fun t => __wt_bt_hdr_type sample_page_types ⟨t⟩) =
      ["database descriptor page", "column fixed-length leaf", "column internal",
       "column variable-length leaf", "duplicate internal", "duplicate leaf", "overflow",
       "row internal", "row leaf", "invalid"] :=
  ⟨⟨by unfold PageTypes.distinct; decide, by unfold ItemTypes.distinct; decide⟩,
   (labels_unambiguous sample_page_types sample_item_types
      (by unfold PageTypes.distinct; decide) (by unfold ItemTypes.distinct; decide)).1,
   (labels_unambiguous sample_page_types sample_item_types
      (by unfold PageTypes.distinct; decide) (by unfold ItemTypes.distinct; decide)).2.1,
   by decide⟩

end BtMisc
